import Mathlib

/-!
# DeskHop pointer routing: a shallow embedding of `src/mouse.c`

The definitions below follow `src/src/config.h`, `src/src/user_config.c` and
`src/src/mouse.c`.  C integers are mathematical integers with explicit wrapping at
the places where the C type narrows a value; `float` is IEEE-754 binary32 with
round-to-nearest-even, held as an integer significand and a power-of-two exponent.
-/

namespace DeskHop

/-! ## Machine integers -/

/-- Two's-complement reading of `x` in a signed integer of `w` bits. -/
def wrap_signed (w : Nat) (x : Int) : Int :=
  (x + 2 ^ (w - 1)) % 2 ^ w - 2 ^ (w - 1)

/-- Conversion to `int` / `int32_t`. -/
def to_int32 (x : Int) : Int := wrap_signed 32 x

/-- Conversion to `int16_t`. -/
def to_int16 (x : Int) : Int := wrap_signed 16 x

/-- Conversion to `uint8_t`. -/
def to_uint8 (x : Int) : Nat := (x % 256).toNat

/-! ## Binary32 arithmetic -/

/-- A finite binary floating point value `mant * 2 ^ exp`.  The exponent is not
bounded: every value that `accelerate` forms from an `int32_t` and its table lies
well inside the normal range of binary32. -/
structure float_t where
  mant : Int
  exp : Int
  deriving DecidableEq, Repr

/-- Number of binary digits of `n`, computed with `fuel` halving steps. -/
def bit_length_aux : Nat → Nat → Nat
  | 0, _ => 0
  | fuel + 1, n => if n = 0 then 0 else bit_length_aux fuel (n / 2) + 1

/-- Number of binary digits of `n` (`0` for `n = 0`). -/
def bit_length (n : Nat) : Nat := bit_length_aux n n

/-- Round a natural number to `p` significant bits, ties to even. -/
def round_bits (p : Nat) (a : Nat) : Nat :=
  if a < 2 ^ p then a
  else
    let k := bit_length a - p
    let q := a / 2 ^ k
    let r := a % 2 ^ k
    let half := 2 ^ (k - 1)
    if r > half ∨ (r = half ∧ q % 2 = 1) then (q + 1) * 2 ^ k else q * 2 ^ k

/-- Round an integer significand to `p` significant bits, ties to even. -/
def round_sig (p : Nat) (n : Int) : Int :=
  if n < 0 then -((round_bits p n.natAbs : Nat) : Int) else ((round_bits p n.natAbs : Nat) : Int)

/-- The binary value with a `p`-bit significand nearest to the decimal literal
`num / den` (ties to even), for a literal of magnitude at least one. -/
def literal_to_binary (p : Nat) (num den : Nat) : float_t :=
  let k := p - bit_length (num / den)
  let q := (num * 2 ^ k) / den
  let r := (num * 2 ^ k) % den
  let m := if 2 * r > den ∨ (2 * r = den ∧ q % 2 = 1) then q + 1 else q
  ⟨(m : Int), -(k : Int)⟩

/-- A C floating constant `num / den` has type `double` (53-bit significand). -/
def double_literal (num den : Nat) : float_t := literal_to_binary 53 num den

/-- Conversion `double → float`: the significand is rounded to 24 bits. -/
def double_to_float (x : float_t) : float_t := ⟨round_sig 24 x.mant, x.exp⟩

/-- Conversion `int → float`. -/
def int_to_float (n : Int) : float_t := ⟨round_sig 24 n, 0⟩

/-- Product of two `float` values: the exact product rounded to 24 bits. -/
def float_mul (x y : float_t) : float_t := ⟨round_sig 24 (x.mant * y.mant), x.exp + y.exp⟩

/-- The value a `float` has once its fraction is dropped (truncation toward zero),
before it is fitted into an `int32_t`. -/
def float_trunc (x : float_t) : Int :=
  if 0 ≤ x.exp then x.mant * ((2 ^ x.exp.toNat : Nat) : Int)
  else Int.tdiv x.mant ((2 ^ (-x.exp).toNat : Nat) : Int)

/-- The truncated value of `x` fits an `int32_t`: the conversion `float → int32_t` is
defined by C. -/
abbrev float_in_int32_range (x : float_t) : Prop :=
  -2147483648 ≤ float_trunc x ∧ float_trunc x ≤ 2147483647

/-- Conversion `float → int32_t`: truncation toward zero.  C leaves the conversion of
a value outside the range of `int32_t` undefined; the definition gives `INT32_MIN`
there, which is what the conversion instruction of an x86 host returns.  The statements
about `accelerate` are made for deltas whose product satisfies `float_in_int32_range`,
where this choice is not read. -/
def float_to_int32 (x : float_t) : Int :=
  if float_in_int32_range x then float_trunc x else -2147483648

/-! ## `config.h` -/

def MIN_SCREEN_COORD : Int := 0
def MAX_SCREEN_COORD : Int := 32767
def SCREEN_MIDPOINT : Int := 16384

/-- Values of `enum output_e`. -/
def OUTPUT_A : Nat := 0
def OUTPUT_B : Nat := 1

/-- Values of `enum os_type_e`. -/
def LINUX : Nat := 1
def MACOS : Nat := 2
def WINDOWS : Nat := 3
def OTHER : Nat := 255

/-- Values of `enum screen_pos_e`. -/
def LEFT : Int := 1
def RIGHT : Int := 2
def MIDDLE : Int := 3

/-- The struct `border_size_t` (two `uint16_t`). -/
structure border_size_t where
  top : Nat
  bottom : Nat
  deriving DecidableEq, Repr

/-- The struct `screensaver_t`. -/
structure screensaver_t where
  enabled : Bool
  only_if_inactive : Bool
  idle_time_us : Nat
  max_time_us : Nat
  deriving DecidableEq, Repr

/-- The struct `output_t`; unsigned fields are natural numbers, the two enum fields
hold the enum's integer value. -/
structure output_t where
  number : Nat
  screen_count : Nat
  screen_index : Nat
  speed_x : Nat
  speed_y : Nat
  border : border_size_t
  os : Nat
  pos : Int
  screensaver : screensaver_t
  deriving DecidableEq, Repr

/-- A C array of `NUM_OUTPUTS = 2` elements.  Only the indices `0` and `1` exist in
the C program; `get` and `set` treat every other index like index `1`, and the
theorems below keep indices inside the array. -/
structure per_output (α : Type) where
  a : α
  b : α
  deriving DecidableEq, Repr

/-- Array read `arr[i]`. -/
def per_output.get {α : Type} (arr : per_output α) (i : Int) : α :=
  if i = 0 then arr.a else arr.b

/-- Array write `arr[i] = v`. -/
def per_output.set {α : Type} (arr : per_output α) (i : Int) (v : α) : per_output α :=
  if i = 0 then { arr with a := v } else { arr with b := v }

/-- The struct `config_t`. -/
structure config_t where
  version : Nat
  kbd_led_as_indicator : Bool
  hotkey_toggle : Nat
  jump_threshold : Nat
  enable_acceleration : Bool
  enforce_ports : Bool
  output : per_output output_t
  deriving DecidableEq, Repr

def CURRENT_CONFIG_VERSION : Nat := 5

/-! ## `user_config.c` -/

/-- The values that `user_config.h` (a header that is not among the sources) gives to
the macros read by `user_config.c`. -/
structure user_config_h where
  KBD_LED_AS_INDICATOR : Bool
  HOTKEY_TOGGLE : Nat
  JUMP_THRESHOLD : Nat
  ENABLE_ACCELERATION : Bool
  ENFORCE_PORTS : Bool
  MOUSE_SPEED_A_FACTOR_X : Nat
  MOUSE_SPEED_A_FACTOR_Y : Nat
  OUTPUT_A_OS : Nat
  SCREENSAVER_A_ENABLED : Bool
  SCREENSAVER_A_ONLY_IF_INACTIVE : Bool
  SCREENSAVER_A_IDLE_TIME_SEC : Nat
  SCREENSAVER_A_MAX_TIME_SEC : Nat
  MOUSE_SPEED_B_FACTOR_X : Nat
  MOUSE_SPEED_B_FACTOR_Y : Nat
  OUTPUT_B_OS : Nat
  SCREENSAVER_B_ENABLED : Bool
  SCREENSAVER_B_ONLY_IF_INACTIVE : Bool
  SCREENSAVER_B_IDLE_TIME_SEC : Nat
  SCREENSAVER_B_MAX_TIME_SEC : Nat
  deriving DecidableEq, Repr

/-- The compiled-in configuration `user_config`. -/
def user_config (m : user_config_h) : config_t :=
  { version := CURRENT_CONFIG_VERSION
    kbd_led_as_indicator := m.KBD_LED_AS_INDICATOR
    hotkey_toggle := m.HOTKEY_TOGGLE
    jump_threshold := m.JUMP_THRESHOLD
    enable_acceleration := m.ENABLE_ACCELERATION
    enforce_ports := m.ENFORCE_PORTS
    output :=
      { a :=
          { number := OUTPUT_A
            speed_x := m.MOUSE_SPEED_A_FACTOR_X
            speed_y := m.MOUSE_SPEED_A_FACTOR_Y
            border := { top := 0, bottom := MAX_SCREEN_COORD.toNat }
            screen_count := 1
            screen_index := 1
            os := m.OUTPUT_A_OS
            pos := RIGHT
            screensaver :=
              { enabled := m.SCREENSAVER_A_ENABLED
                only_if_inactive := m.SCREENSAVER_A_ONLY_IF_INACTIVE
                idle_time_us := m.SCREENSAVER_A_IDLE_TIME_SEC * 1000000
                max_time_us := m.SCREENSAVER_A_MAX_TIME_SEC * 1000000 } }
        b :=
          { number := OUTPUT_B
            speed_x := m.MOUSE_SPEED_B_FACTOR_X
            speed_y := m.MOUSE_SPEED_B_FACTOR_Y
            border := { top := 0, bottom := MAX_SCREEN_COORD.toNat }
            screen_count := 1
            screen_index := 1
            os := m.OUTPUT_B_OS
            pos := LEFT
            screensaver :=
              { enabled := m.SCREENSAVER_B_ENABLED
                only_if_inactive := m.SCREENSAVER_B_ONLY_IF_INACTIVE
                idle_time_us := m.SCREENSAVER_B_IDLE_TIME_SEC * 1000000
                max_time_us := m.SCREENSAVER_B_MAX_TIME_SEC * 1000000 } } } }

/-! ## Declarations of `main.h` used by `mouse.c` -/

/-- Modelled from the spec: `main.h` is not among the sources.  The report mode
constants `ABSOLUTE` and `RELATIVE` are two distinct codes; a zero-initialised report
has mode `0`. -/
def ABSOLUTE : Nat := 0

/-- Modelled from the spec: see `ABSOLUTE`. -/
def RELATIVE : Nat := 1

/-- Modelled from the spec: the transient per-report values `move_x`, `move_y`,
`wheel` and `buttons` (`mouse_values_t` of `main.h`). -/
structure mouse_values_t where
  move_x : Int
  move_y : Int
  wheel : Int
  buttons : Int
  deriving DecidableEq, Repr

/-- Modelled from the spec: the outgoing report with its fields `mode`, `x`, `y`,
`wheel` and `buttons` (`mouse_report_t` of `main.h`).  The field widths are not in the
sources, so a field holds the integer assigned to it. -/
structure mouse_report_t where
  buttons : Int
  x : Int
  y : Int
  wheel : Int
  mode : Nat
  deriving DecidableEq, Repr

/-- Modelled from the spec: the part of `device_t` (`main.h`) that `mouse.c` reads and
writes.  `mouse_queue` is the bounded report queue, oldest report first.  `uart_tx`
lists the reports handed to `send_packet`, and `reports_out` lists every report handed
to `output_mouse_report`, both oldest first. -/
structure device_t where
  config : config_t
  active_output : Int
  mouse_x : Int
  mouse_y : Int
  mouse_buttons : Int
  switch_lock : Bool
  relative_mouse : Bool
  mouse_zoom : Bool
  tud_connected : Bool
  last_activity : per_output Nat
  mouse_queue : List mouse_report_t
  uart_tx : List mouse_report_t
  reports_out : List mouse_report_t
  deriving DecidableEq, Repr

/-- Modelled from the spec: what `mouse.c` takes from `main.h` and the board support
code: the compile-time `BOARD_ROLE`, the shift `MOUSE_ZOOM_SCALING_FACTOR`, the
capacity of the report queue, and the reading of the clock `time_us_64()`. -/
structure board_t where
  BOARD_ROLE : Int
  MOUSE_ZOOM_SCALING_FACTOR : Nat
  MOUSE_QUEUE_LENGTH : Nat
  time_us_64 : Nat
  deriving DecidableEq, Repr

/-! ## `mouse.c` -/

/-- Move mouse coordinate `position` by `offset`, but don't fall off the screen. -/
def move_and_keep_on_screen (position offset : Int) : Int :=
  if to_int32 (position + offset) < MIN_SCREEN_COORD then MIN_SCREEN_COORD
  else if to_int32 (position + offset) > MAX_SCREEN_COORD then MAX_SCREEN_COORD
  else to_int32 (position + offset)

/-- One entry of the acceleration curve: the breakpoint `value` and the `float`
`factor`. -/
structure curve where
  value : Int
  factor : float_t
  deriving DecidableEq, Repr

/-- The table `acceleration[7]`: each initialiser is converted to `float`. -/
def acceleration : List curve :=
  [ ⟨2, int_to_float 1⟩,
    ⟨5, double_to_float (double_literal 11 10)⟩,
    ⟨15, double_to_float (double_literal 14 10)⟩,
    ⟨30, double_to_float (double_literal 19 10)⟩,
    ⟨45, double_to_float (double_literal 26 10)⟩,
    ⟨60, double_to_float (double_literal 34 10)⟩,
    ⟨70, double_to_float (double_literal 4 1)⟩ ]

/-- The expression `offset * factor` returned as `int32_t`. -/
def scale_offset (offset : Int) (factor : float_t) : Int :=
  float_to_int32 (float_mul (int_to_float offset) factor)

/-- The `for` loop of `accelerate` over the entries still to be tested. -/
def accelerate_loop (offset : Int) : List curve → Option Int
  | [] => none
  | c :: rest =>
    if (offset.natAbs : Int) < c.value then some (scale_offset offset c.factor)
    else accelerate_loop offset rest

/-- Basic mouse acceleration. -/
def accelerate (state : device_t) (offset : Int) : Int :=
  if !state.config.enable_acceleration then offset
  else
    match accelerate_loop offset acceleration with
    | some r => r
    | none => scale_offset offset (acceleration.get ⟨6, by decide⟩).factor

/-- Modelled from the spec: `queue_try_add` of the board support code, a non-blocking
add to a bounded queue that drops the report when the queue is full. -/
def queue_try_add (hw : board_t) (queue : List mouse_report_t) (report : mouse_report_t) :
    List mouse_report_t :=
  if queue.length < hw.MOUSE_QUEUE_LENGTH then queue ++ [report] else queue

def queue_mouse_report (hw : board_t) (report : mouse_report_t) (state : device_t) : device_t :=
  if !state.tud_connected then state
  else { state with mouse_queue := queue_try_add hw state.mouse_queue report }

def update_mouse_position (hw : board_t) (state : device_t) (values : mouse_values_t) : device_t :=
  let current := state.config.output.get state.active_output
  let reduce_speed : Nat := if state.mouse_zoom then hw.MOUSE_ZOOM_SCALING_FACTOR else 0
  let offset_x := to_int32 (accelerate state values.move_x * ((current.speed_x >>> reduce_speed : Nat) : Int))
  let offset_y := to_int32 (accelerate state values.move_y * ((current.speed_y >>> reduce_speed : Nat) : Int))
  { state with
    mouse_x := move_and_keep_on_screen state.mouse_x offset_x
    mouse_y := move_and_keep_on_screen state.mouse_y offset_y
    mouse_buttons := values.buttons }

/-- If we are active output, queue packet to mouse queue, else send them through UART.
`CURRENT_BOARD_IS_ACTIVE_OUTPUT` is `active_output == BOARD_ROLE`.  Every call is
recorded at the end of `reports_out`. -/
def output_mouse_report (hw : board_t) (report : mouse_report_t) (state : device_t) : device_t :=
  let logged := { state with reports_out := state.reports_out ++ [report] }
  if logged.active_output = hw.BOARD_ROLE then
    let queued := queue_mouse_report hw report logged
    { queued with last_activity := queued.last_activity.set hw.BOARD_ROLE hw.time_us_64 }
  else { logged with uart_tx := logged.uart_tx ++ [report] }

/-- Calculate and return Y coordinate when moving from screen `screen_from` to screen
`screen_to`; the result is an `int16_t`. -/
def scale_y_coordinate (screen_from screen_to : Int) (state : device_t) : Int :=
  let out_from := state.config.output.get screen_from
  let out_to := state.config.output.get screen_to
  let size_to : Int := (out_to.border.bottom : Int) - (out_to.border.top : Int)
  let size_from : Int := (out_from.border.bottom : Int) - (out_from.border.top : Int)
  if size_from = size_to then to_int16 state.mouse_y
  else if size_from > size_to then
    to_int16 ((out_to.border.top : Int) + Int.tdiv (to_int32 (size_to * state.mouse_y)) MAX_SCREEN_COORD)
  else if state.mouse_y < (out_from.border.top : Int) then to_int16 MIN_SCREEN_COORD
  else if state.mouse_y > (out_from.border.bottom : Int) then to_int16 MAX_SCREEN_COORD
  else
    to_int16 (Int.tdiv
      (to_int32 ((state.mouse_y - (out_from.border.top : Int)) * MAX_SCREEN_COORD)) size_from)

/-- Modelled from the spec: `switch_output` is defined outside the sources; it makes
`new_output` the active output. -/
def switch_output (state : device_t) (new_output : Int) : device_t :=
  { state with active_output := new_output }

/-- The local `hidden_pointer` of `switch_screen`; the fields the initialiser does not
name are zero. -/
def hidden_pointer : mouse_report_t :=
  { y := MIN_SCREEN_COORD, x := MAX_SCREEN_COORD, buttons := 0, wheel := 0, mode := 0 }

/-- The pointer `output` of the C function is the index of the entry of
`state->config.output` it points to. -/
def switch_screen (hw : board_t) (state : device_t) (output : Int) (_new_x : Int)
    (_output_from output_to : Int) (direction : Int) : device_t :=
  let s1 := output_mouse_report hw hidden_pointer state
  let s2 := switch_output s1 output_to
  let s3 := { s2 with mouse_x := if direction = LEFT then MAX_SCREEN_COORD else MIN_SCREEN_COORD }
  let number : Int := ((s3.config.output.get output).number : Int)
  { s3 with mouse_y := scale_y_coordinate number (1 - number) s3 }

/-- The local `move_relative_one` of `switch_desktop`; the fields the initialiser does
not name are zero. -/
def move_relative_one (direction : Int) : mouse_report_t :=
  { x := if direction = LEFT then SCREEN_MIDPOINT - 2 else SCREEN_MIDPOINT + 2,
    mode := RELATIVE, y := 0, buttons := 0, wheel := 0 }

/-- The statement `switch (output->os)` of `switch_desktop`. -/
def switch_desktop_os (hw : board_t) (state : device_t) (output : Int) (new_index : Int)
    (direction : Int) : device_t :=
  let os := (state.config.output.get output).os
  if os = MACOS then
    output_mouse_report hw (move_relative_one direction)
      (output_mouse_report hw (move_relative_one direction) state)
  else if os = WINDOWS then { state with relative_mouse := decide (new_index > 1) }
  else state

/-- Pointer `output` as in `switch_screen`; `screen_index` is a `uint8_t`. -/
def switch_desktop (hw : board_t) (state : device_t) (output : Int) (new_index : Int)
    (direction : Int) : device_t :=
  let s1 := switch_desktop_os hw state output new_index direction
  let s2 := { s1 with mouse_x := if direction = RIGHT then MIN_SCREEN_COORD else MAX_SCREEN_COORD }
  let out := s2.config.output.get output
  { s2 with config := { s2.config with
      output := s2.config.output.set output { out with screen_index := to_uint8 new_index } } }

def check_screen_switch (hw : board_t) (values : mouse_values_t) (state : device_t) : device_t :=
  let new_x := to_int32 (state.mouse_x + values.move_x)
  let output := state.config.output.get state.active_output
  let jump_left : Bool := decide (new_x < MIN_SCREEN_COORD - (state.config.jump_threshold : Int))
  let jump_right : Bool := decide (new_x > MAX_SCREEN_COORD + (state.config.jump_threshold : Int))
  let direction := if jump_left then LEFT else RIGHT
  if state.switch_lock || decide (state.mouse_buttons ≠ 0) then state
  else if !jump_left && !jump_right then state
  else if output.pos ≠ direction then
    if output.screen_index = 1 then
      switch_screen hw state state.active_output new_x state.active_output
        (1 - state.active_output) direction
    else switch_desktop hw state state.active_output ((output.screen_index : Int) - 1) direction
  else if output.screen_index < output.screen_count then
    switch_desktop hw state state.active_output ((output.screen_index : Int) + 1) direction
  else state

def create_mouse_report (state : device_t) (values : mouse_values_t) : mouse_report_t :=
  let mouse_report : mouse_report_t :=
    { buttons := values.buttons, x := state.mouse_x, y := state.mouse_y,
      wheel := values.wheel, mode := ABSOLUTE }
  if state.relative_mouse then
    { mouse_report with
      x := SCREEN_MIDPOINT + values.move_x
      y := SCREEN_MIDPOINT + values.move_y
      mode := RELATIVE
      buttons := values.buttons
      wheel := values.wheel }
  else mouse_report

/-- The body of `process_mouse_report` after `extract_report_values` has filled
`values` from the raw report. -/
def process_mouse_report (hw : board_t) (values : mouse_values_t) (state : device_t) : device_t :=
  let s1 := update_mouse_position hw state values
  let report := create_mouse_report s1 values
  let s2 := output_mouse_report hw report s1
  check_screen_switch hw values s2

/-- Modelled from the spec: the host transport seen by the drain tick, outside the
sources: whether the link is suspended (`tud_suspended`), and whether the delivery
of a report succeeds (`tud_mouse_report`). -/
structure usb_host_t where
  tud_suspended : Bool
  tud_mouse_report : mouse_report_t → Bool

/-- What one run of `process_mouse_queue_task` does: the state it leaves, the reports
it offered to the transport, and whether it asked for a remote wake-up. -/
structure queue_task_result where
  state : device_t
  offered : List mouse_report_t
  remote_wakeup : Bool

/-- The queue primitives `queue_try_peek` and `queue_try_remove` of the board support
code read and remove the oldest report of the queue. -/
def process_mouse_queue_task (usb : usb_host_t) (state : device_t) : queue_task_result :=
  if !state.tud_connected then { state := state, offered := [], remote_wakeup := false }
  else
    match state.mouse_queue with
    | [] => { state := state, offered := [], remote_wakeup := false }
    | report :: rest =>
      let succeeded := usb.tud_mouse_report report
      if succeeded then
        { state := { state with mouse_queue := rest }, offered := [report],
          remote_wakeup := usb.tud_suspended }
      else { state := state, offered := [report], remote_wakeup := usb.tud_suspended }

/-! ## `utils.c` -/

def CONFIG_MAGIC : Nat := 0xB00B1E5

/-- The struct `config_storage_t`: the record kept in flash and in the binary file. -/
structure config_storage_t where
  magic_header : Nat
  checksum : Nat
  config : config_t
  deriving DecidableEq, Repr

/-- The function `load_config`.  `storage` is the record found at
`ADDR_CONFIG_BASE_ADDR`.  Modelled from the spec: `calc_checksum` is declared in
`checksum.h`, outside the sources; it is the parameter `calc_checksum`, a function
of the configuration whose bytes it reads, with 32-bit values.  The result is the new
state together with the value written to `hotkeys[0].keys[0]`. -/
def load_config (m : user_config_h) (calc_checksum : config_t → Nat)
    (storage : config_storage_t) (state : device_t) : device_t × Nat :=
  let s1 := { state with config := storage.config }
  let checksum : Nat := to_uint8 (calc_checksum s1.config : Int)
  let magic_header_fail : Bool := decide (storage.magic_header ≠ CONFIG_MAGIC)
  let checksum_fail : Bool := decide (storage.checksum ≠ checksum)
  let version_fail : Bool := decide (s1.config.version ≠ CURRENT_CONFIG_VERSION)
  let s2 :=
    if magic_header_fail || checksum_fail || version_fail then
      { s1 with config := user_config m }
    else s1
  (s2, s2.config.hotkey_toggle)

/-- The function `save_config`: the record that the flash holds once the sector has
been erased and the page programmed. -/
def save_config (calc_checksum : config_t → Nat) (state : device_t) : config_storage_t :=
  { magic_header := CONFIG_MAGIC
    checksum := calc_checksum state.config % 4294967296
    config := state.config }

/-- The `static` variables of `screensaver_task`. -/
structure screensaver_static_t where
  report : mouse_report_t
  last_pointer_move : Int
  dx : Int
  dy : Int
  deriving DecidableEq, Repr

/-- The initial values of the `static` variables of `screensaver_task`. -/
def screensaver_static_init : screensaver_static_t :=
  { report := { x := 0, y := 0, buttons := 0, wheel := 0, mode := 0 }
    last_pointer_move := 0
    dx := 20
    dy := 25 }

/-- The clock reading `time_us_32()`: the low 32 bits of the timer. -/
def time_us_32 (hw : board_t) : Nat := hw.time_us_64 % 4294967296

/-- The local `inactivity_period` of `screensaver_task`, a `uint64_t` difference. -/
def inactivity_period (hw : board_t) (state : device_t) : Nat :=
  (((hw.time_us_64 : Int) - (state.last_activity.get hw.BOARD_ROLE : Int)) %
    18446744073709551616).toNat

/-- Have something fun and entertaining when idle. -/
def screensaver_task (hw : board_t) (st : screensaver_static_t) (state : device_t) :
    screensaver_static_t × device_t :=
  let mouse_move_delay : Int := 5000
  let screensaver := (state.config.output.get hw.BOARD_ROLE).screensaver
  if !screensaver.enabled then (st, state)
  else if inactivity_period hw state < screensaver.idle_time_us then (st, state)
  else if decide (screensaver.max_time_us ≠ 0) &&
      decide (inactivity_period hw state >
        (screensaver.max_time_us + screensaver.idle_time_us) % 18446744073709551616) then
    (st, state)
  else if screensaver.only_if_inactive && decide (state.active_output = hw.BOARD_ROLE) then
    (st, state)
  else if ((time_us_32 hw : Int) - st.last_pointer_move) % 4294967296 < mouse_move_delay then
    (st, state)
  else
    let dx :=
      if st.report.x + st.dx < MIN_SCREEN_COORD ∨ st.report.x + st.dx > MAX_SCREEN_COORD
      then -st.dx else st.dx
    let dy :=
      if st.report.y + st.dy < MIN_SCREEN_COORD ∨ st.report.y + st.dy > MAX_SCREEN_COORD
      then -st.dy else st.dy
    let report := { st.report with x := st.report.x + dx, y := st.report.y + dy }
    ({ report := report, last_pointer_move := to_int32 (time_us_32 hw), dx := dx, dy := dy },
      queue_mouse_report hw report state)

/-! ## `cfgtool.c` -/

/-- Conversion to `uint16_t`. -/
def to_uint16 (x : Int) : Nat := (x % 65536).toNat

/-- Conversion to `uint64_t`. -/
def to_uint64 (x : Int) : Nat := (x % 18446744073709551616).toNat

def EXIT_SUCCESS : Nat := 0
def EXIT_FAILURE : Nat := 1

/-- Modelled from the spec: a value of the text form: a number, a boolean or a word. -/
inductive ini_value where
  | num (n : Int)
  | flag (b : Bool)
  | word (s : String)
  deriving DecidableEq, Repr

/-- Modelled from the spec: the text form of a configuration, a map from
(section, key) to value, held as an association list.  The library `minIni` that
reads and writes the text is not among the sources. -/
abbrev ini_file_t := List ((String × String) × ini_value)

/-- The value stored under a section and key, if any. -/
def ini_find (ini_file : ini_file_t) (sect key : String) : Option ini_value :=
  match ini_file.find? (fun e => decide (e.1 = (sect, key))) with
  | some e => some e.2
  | none => none

/-- Modelled from the spec: `ini_haskey`. -/
def ini_haskey (sect key : String) (ini_file : ini_file_t) : Bool :=
  (ini_find ini_file sect key).isSome

/-- Modelled from the spec: `ini_getl`, the number under the key, `0` for a value that
is not a number, `default_value` for a missing key. -/
def ini_getl (sect key : String) (default_value : Int) (ini_file : ini_file_t) : Int :=
  match ini_find ini_file sect key with
  | some (ini_value.num n) => n
  | some _ => 0
  | none => default_value

/-- Modelled from the spec: `ini_getbool`, the boolean under the key, `default_value`
for a missing key or a value that is not a boolean. -/
def ini_getbool (sect key : String) (default_value : Bool) (ini_file : ini_file_t) : Bool :=
  match ini_find ini_file sect key with
  | some (ini_value.flag b) => b
  | some (ini_value.num n) => if n = 1 then true else if n = 0 then false else default_value
  | _ => default_value

/-- Modelled from the spec: `ini_gets`, the text under the key, `default_value` for a
missing key.  The C function returns the length of this text. -/
def ini_gets (sect key : String) (default_value : String) (ini_file : ini_file_t) : String :=
  match ini_find ini_file sect key with
  | some (ini_value.word w) => w
  | some (ini_value.num n) => toString n
  | some (ini_value.flag b) => if b then "true" else "false"
  | none => default_value

/-- Store `v` under a section and key: an entry already there is replaced. -/
def ini_put (sect key : String) (v : ini_value) : ini_file_t → ini_file_t
  | [] => [((sect, key), v)]
  | e :: rest =>
    if e.1 = (sect, key) then ((sect, key), v) :: rest else e :: ini_put sect key v rest

/-- Modelled from the spec: `ini_putl`. -/
def ini_putl (sect key : String) (n : Int) (ini_file : ini_file_t) : ini_file_t :=
  ini_put sect key (ini_value.num n) ini_file

/-- Modelled from the spec: `ini_puts`. -/
def ini_puts (sect key : String) (w : String) (ini_file : ini_file_t) : ini_file_t :=
  ini_put sect key (ini_value.word w) ini_file

/-- Modelled from the spec: `ini_putbool`. -/
def ini_putbool (sect key : String) (b : Bool) (ini_file : ini_file_t) : ini_file_t :=
  ini_put sect key (ini_value.flag b) ini_file

/-- The result of `get_numeric_value`: the enum `gnv_e`, with the number stored through
`result` on `SUCCESS`. -/
inductive gnv_e where
  | SUCCESS (result : Int)
  | FAILURE
  | NOT_PRESENT
  deriving DecidableEq, Repr

def get_numeric_value (ini_file : ini_file_t) (section_name key_name : String) : gnv_e :=
  if ini_haskey section_name key_name ini_file then
    let val := ini_getl section_name key_name (-1) ini_file
    if val = -1 then gnv_e.FAILURE else gnv_e.SUCCESS val
  else gnv_e.NOT_PRESENT

/-- The function returns `false` (here `none`) on a failure, and otherwise updates
`border`. -/
def import_output_border (ini_file : ini_file_t) (section_name : String)
    (border : border_size_t) : Option border_size_t :=
  match get_numeric_value ini_file section_name "top" with
  | gnv_e.FAILURE => none
  | r1 =>
    let b1 : border_size_t :=
      match r1 with
      | gnv_e.SUCCESS val => { border with top := to_uint16 val }
      | _ => border
    match get_numeric_value ini_file section_name "bottom" with
    | gnv_e.FAILURE => none
    | gnv_e.SUCCESS val => some { b1 with bottom := to_uint16 val }
    | gnv_e.NOT_PRESENT => some b1

def import_output_screensaver (ini_file : ini_file_t) (section_name : String)
    (screensaver : screensaver_t) : Option screensaver_t :=
  let s1 := { screensaver with
    enabled := ini_getbool section_name "enabled" screensaver.enabled ini_file }
  let s2 := { s1 with
    only_if_inactive := ini_getbool section_name "only_if_inactive" s1.only_if_inactive ini_file }
  match get_numeric_value ini_file section_name "idle_time_sec" with
  | gnv_e.FAILURE => none
  | r1 =>
    let s3 : screensaver_t :=
      match r1 with
      | gnv_e.SUCCESS val => { s2 with idle_time_us := to_uint64 (to_uint64 val * 1000000) }
      | _ => s2
    match get_numeric_value ini_file section_name "max_time_sec" with
    | gnv_e.FAILURE => none
    | gnv_e.SUCCESS val => some { s3 with max_time_us := to_uint64 (to_uint64 val * 1000000) }
    | gnv_e.NOT_PRESENT => some s3

/-- One numeric key of `import_output`: `none` on a failure, otherwise the field after
the `switch`. -/
def import_numeric (ini_file : ini_file_t) (section_name key_name : String) (old : Nat)
    (convert : Int → Nat) : Option Nat :=
  match get_numeric_value ini_file section_name key_name with
  | gnv_e.FAILURE => none
  | gnv_e.SUCCESS val => some (convert val)
  | gnv_e.NOT_PRESENT => some old

def import_output (ini_file : ini_file_t) (section_name : String) (output : output_t) :
    Option output_t :=
  match import_numeric ini_file section_name "screen_count" output.screen_count to_uint8 with
  | none => none
  | some screen_count =>
  match import_numeric ini_file section_name "speed_x" output.speed_x to_uint16 with
  | none => none
  | some speed_x =>
  match import_numeric ini_file section_name "speed_y" output.speed_y to_uint16 with
  | none => none
  | some speed_y =>
  let o1 := { output with screen_count := screen_count, speed_x := speed_x, speed_y := speed_y }
  let os_text := ini_gets section_name "os" "" ini_file
  let os : Option Nat :=
    if os_text.length ≠ 0 then
      if os_text = "linux" then some LINUX
      else if os_text = "macos" then some MACOS
      else if os_text = "windows" then some WINDOWS
      else if os_text = "other" then some OTHER
      else none
    else some o1.os
  match os with
  | none => none
  | some os =>
  let pos_text := ini_gets section_name "position" "" ini_file
  let pos : Option Int :=
    if pos_text.length ≠ 0 then
      if pos_text = "left" then some LEFT
      else if pos_text = "middle" then some MIDDLE
      else if pos_text = "right" then some RIGHT
      else none
    else some o1.pos
  match pos with
  | none => none
  | some pos =>
  match import_output_border ini_file (section_name ++ ".border") o1.border with
  | none => none
  | some border =>
  match import_output_screensaver ini_file (section_name ++ ".screensaver") o1.screensaver with
  | none => none
  | some screensaver =>
    some { o1 with os := os, pos := pos, border := border, screensaver := screensaver }

def config_ini_import (ini_file : ini_file_t) (cfg : config_t) : Option config_t :=
  let c1 := { cfg with
    kbd_led_as_indicator := ini_getbool "core" "kbd_led_as_indicator" cfg.kbd_led_as_indicator ini_file
    enable_acceleration := ini_getbool "core" "enable_acceleration" cfg.enable_acceleration ini_file
    enforce_ports := ini_getbool "core" "enforce_ports" cfg.enforce_ports ini_file }
  match import_numeric ini_file "core" "hotkey_toggle" c1.hotkey_toggle to_uint8 with
  | none => none
  | some hotkey_toggle =>
  match import_output ini_file "output_a" (c1.output.get OUTPUT_A) with
  | none => none
  | some output_a =>
  match import_output ini_file "output_b" (c1.output.get OUTPUT_B) with
  | none => none
  | some output_b =>
    some { c1 with
      hotkey_toggle := hotkey_toggle
      output := (c1.output.set OUTPUT_A output_a).set OUTPUT_B output_b }

/-- The function `import` of the tool (a reserved word, hence the name): the exit
status and the binary file it writes, if any.  Opening and writing the binary file
are taken to succeed. -/
def tool_import (m : user_config_h) (calc_checksum : config_t → Nat) (ini_file : ini_file_t) :
    Nat × Option config_storage_t :=
  match config_ini_import ini_file (user_config m) with
  | none => (EXIT_FAILURE, none)
  | some config =>
    (EXIT_SUCCESS,
      some { magic_header := CONFIG_MAGIC, checksum := calc_checksum config % 4294967296,
             config := config })

def export_output_border (ini_file : ini_file_t) (section_name : String)
    (border : border_size_t) : ini_file_t :=
  ini_putl section_name "bottom" border.bottom (ini_putl section_name "top" border.top ini_file)

def export_output_screensaver (ini_file : ini_file_t) (section_name : String)
    (screensaver : screensaver_t) : ini_file_t :=
  let f1 := ini_putbool section_name "enabled" screensaver.enabled ini_file
  let f2 := ini_putbool section_name "only_if_inactive" screensaver.only_if_inactive f1
  let f3 := ini_putl section_name "idle_time_sec"
    (Int.tdiv (wrap_signed 64 screensaver.idle_time_us) 1000000) f2
  ini_putl section_name "max_time_sec"
    (Int.tdiv (wrap_signed 64 screensaver.max_time_us) 1000000) f3

def export_output (ini_file : ini_file_t) (section_name : String) (output : output_t) :
    ini_file_t :=
  let f1 := ini_putl section_name "screen_count" output.screen_count ini_file
  let f2 := ini_putl section_name "speed_x" output.speed_x f1
  let f3 := ini_putl section_name "speed_y" output.speed_y f2
  let f4 :=
    if output.os = LINUX then ini_puts section_name "os" "linux" f3
    else if output.os = MACOS then ini_puts section_name "os" "macos" f3
    else if output.os = WINDOWS then ini_puts section_name "os" "windows" f3
    else ini_puts section_name "os" "other" f3
  let f5 :=
    if output.pos = LEFT then ini_puts section_name "pos" "left" f4
    else if output.pos = MIDDLE then ini_puts section_name "pos" "middle" f4
    else if output.pos = RIGHT then ini_puts section_name "pos" "right" f4
    else f4
  let f6 := export_output_border f5 (section_name ++ ".border") output.border
  export_output_screensaver f6 (section_name ++ ".screensaver") output.screensaver

def config_ini_export (ini_file : ini_file_t) (cfg : config_t) : ini_file_t :=
  let f1 := ini_putbool "core" "kbd_led_as_indicator" cfg.kbd_led_as_indicator ini_file
  let f2 := ini_putl "core" "hotkey_toggle" cfg.hotkey_toggle f1
  let f3 := ini_putl "core" "jump_threshold" cfg.jump_threshold f2
  let f4 := ini_putbool "core" "enable_acceleration" cfg.enable_acceleration f3
  let f5 := ini_putbool "core" "enforce_ports" cfg.enforce_ports f4
  let f6 := export_output f5 "output_a" (cfg.output.get OUTPUT_A)
  export_output f6 "output_b" (cfg.output.get OUTPUT_B)

/-- The function `export` of the tool (a reserved word, hence the name): the exit
status and the content of the text file afterwards.  `config_file` is the record read
from the binary file, `none` when the file cannot be opened or is too short. -/
def tool_export (calc_checksum : config_t → Nat) (ini_file : ini_file_t)
    (config_file : Option config_storage_t) : Nat × ini_file_t :=
  match config_file with
  | none => (EXIT_FAILURE, ini_file)
  | some storage =>
    if storage.magic_header ≠ CONFIG_MAGIC then (EXIT_FAILURE, ini_file)
    else if storage.config.version ≠ CURRENT_CONFIG_VERSION then (EXIT_FAILURE, ini_file)
    else if storage.checksum ≠ calc_checksum storage.config % 4294967296 then
      (EXIT_FAILURE, ini_file)
    else (EXIT_SUCCESS, config_ini_export ini_file storage.config)

/-! ## Reference definitions taken from the specification -/

/-- The specification's `clamp(x, lo, hi)`. -/
def clamp (x lo hi : Int) : Int := max lo (min x hi)

/-- Truncation of a rational number toward zero. -/
def trunc_toward_zero (q : ℚ) : Int := if 0 ≤ q then ⌊q⌋ else ⌈q⌉

/-- The breakpoints of §4.1, in ascending order. -/
def spec_breakpoints : List Int := [2, 5, 15, 30, 45, 60, 70]

/-- The multipliers `1.0, 1.1, 1.4, 1.9, 2.6, 3.4, 4.0` of §4.1, in tenths. -/
def spec_tenths : List Nat := [10, 11, 14, 19, 26, 34, 40]

/-- §4.1: the multiplier (in tenths) paired with the first breakpoint strictly greater
than `|delta|`; the last multiplier when no breakpoint exceeds `|delta|`. -/
def spec_multiplier (delta : Int) : Nat :=
  match (spec_breakpoints.zip spec_tenths).find?
      (fun p => decide ((delta.natAbs : Int) < p.1)) with
  | some p => p.2
  | none => 40

/-- The product of §4.1: `delta * m` truncated toward zero, with `m` the decimal
multiplier selected for `delta`. -/
def accelerate_exact (delta : Int) : Int :=
  trunc_toward_zero ((delta : ℚ) * ((spec_multiplier delta : ℚ) / 10))

/-- §4.1: the Acceleration Transform: the delta itself when acceleration is disabled,
and otherwise `delta * m` truncated toward zero. -/
def accelerate_spec (enabled : Bool) (delta : Int) : Int :=
  if enabled then accelerate_exact delta else delta

/-- §4.3: the Coordinate Mapper, from output `source` to output `dest`. -/
def coordinate_mapper (source dest : output_t) (source_y : Int) : Int :=
  let size_from : Int := (source.border.bottom : Int) - (source.border.top : Int)
  let size_to : Int := (dest.border.bottom : Int) - (dest.border.top : Int)
  if size_from = size_to then source_y
  else if size_from > size_to then
    (dest.border.top : Int) + Int.tdiv (size_to * source_y) 32767
  else if source_y < (source.border.top : Int) then 0
  else if source_y > (source.border.bottom : Int) then 32767
  else Int.tdiv ((source_y - (source.border.top : Int)) * 32767) size_from

/-- §6: a valid record: the magic constant, the current version, and the 32-bit
checksum of the configuration in the checksum field. -/
abbrev record_valid (calc_checksum : config_t → Nat) (r : config_storage_t) : Prop :=
  r.magic_header = CONFIG_MAGIC ∧ r.config.version = CURRENT_CONFIG_VERSION ∧
    r.checksum = calc_checksum r.config % 4294967296

/-- The test `load_config` makes: as `record_valid`, with the checksum of the
configuration held in a `uint8_t`. -/
abbrev loader_valid (calc_checksum : config_t → Nat) (r : config_storage_t) : Prop :=
  r.magic_header = CONFIG_MAGIC ∧ r.checksum = to_uint8 (calc_checksum r.config : Int) ∧
    r.config.version = CURRENT_CONFIG_VERSION

/-- The four conditions of §4.7 under which the screensaver stays still. -/
abbrev screensaver_gated (hw : board_t) (state : device_t) : Prop :=
  (state.config.output.get hw.BOARD_ROLE).screensaver.enabled = false ∨
    inactivity_period hw state <
      (state.config.output.get hw.BOARD_ROLE).screensaver.idle_time_us ∨
    ((state.config.output.get hw.BOARD_ROLE).screensaver.max_time_us ≠ 0 ∧
      inactivity_period hw state >
        (state.config.output.get hw.BOARD_ROLE).screensaver.idle_time_us +
          (state.config.output.get hw.BOARD_ROLE).screensaver.max_time_us) ∨
    ((state.config.output.get hw.BOARD_ROLE).screensaver.only_if_inactive = true ∧
      state.active_output = hw.BOARD_ROLE)

/-- The `factor` of the entry that the loop of `accelerate` selects for `offset`, over
the entries still to be tested. -/
def accelerate_factor_loop (offset : Int) : List curve → Option float_t
  | [] => none
  | c :: rest =>
    if (offset.natAbs : Int) < c.value then some c.factor
    else accelerate_factor_loop offset rest

/-- The `factor` that `accelerate` multiplies `offset` with: the one of the first entry
with `abs(offset) < value`, and `acceleration[6].factor` when there is none. -/
def accelerate_factor (offset : Int) : float_t :=
  (accelerate_factor_loop offset acceleration).getD (acceleration.get ⟨6, by decide⟩).factor

/-- The static variables that `screensaver_task` can hold after any number of calls,
each with its own clock reading and session state, starting from their initial
values. -/
inductive screensaver_reachable : screensaver_static_t → Prop
  | init : screensaver_reachable screensaver_static_init
  | step (hw : board_t) (st : screensaver_static_t) (state : device_t) :
      screensaver_reachable st → screensaver_reachable (screensaver_task hw st state).1

/-- The bounce invariant: the synthetic position lies on the screen and the steps
have the sizes `20` and `25`. -/
abbrev bounce_inv (st : screensaver_static_t) : Prop :=
  (0 ≤ st.report.x ∧ st.report.x ≤ 32767) ∧ (0 ≤ st.report.y ∧ st.report.y ≤ 32767) ∧
    (st.dx = 20 ∨ st.dx = -20) ∧ (st.dy = 25 ∨ st.dy = -25)

/-- One call of `screensaver_task` for each clock reading of `ticks`, in order. -/
def screensaver_ticks (ticks : List board_t) (p : screensaver_static_t × device_t) :
    screensaver_static_t × device_t :=
  ticks.foldl (fun q hw => screensaver_task hw q.1 q.2) p

/-- §4.7: the screensaver has expired: `max_time` is non-zero and the inactivity
exceeds `idle_time + max_time`. -/
abbrev screensaver_expired (hw : board_t) (state : device_t) : Prop :=
  (state.config.output.get hw.BOARD_ROLE).screensaver.max_time_us ≠ 0 ∧
    inactivity_period hw state >
      (state.config.output.get hw.BOARD_ROLE).screensaver.idle_time_us +
        (state.config.output.get hw.BOARD_ROLE).screensaver.max_time_us

/-- The states reached from `start` by any number of `check_screen_switch` steps and
whole `process_mouse_report` steps, each with its own report values. -/
inductive switch_reachable (start : device_t) : device_t → Prop
  | start : switch_reachable start start
  | check (hw : board_t) (values : mouse_values_t) (state : device_t) :
      switch_reachable start state →
        switch_reachable start (check_screen_switch hw values state)
  | report (hw : board_t) (values : mouse_values_t) (state : device_t) :
      switch_reachable start state →
        switch_reachable start (process_mouse_report hw values state)

/-- The relative-mode invariant: the output that is not active shows its main desktop,
and `relative_mouse` is set exactly when the active output runs Windows and shows a
desktop other than the main one. -/
abbrev relative_mode_inv (s : device_t) : Prop :=
  (s.config.output.get (1 - s.active_output)).screen_index = 1 ∧
    (s.relative_mouse = true ↔
      ((s.config.output.get s.active_output).os = WINDOWS ∧
        1 < (s.config.output.get s.active_output).screen_index))

/-- The inductive invariant behind `relative_mode_inv`: the active output is one of the
two outputs, both `screen_index` values and both `screen_count` values fit a `uint8_t`
with `screen_index` at least `1`, and `relative_mode_inv` holds. -/
abbrev switch_inv (s : device_t) : Prop :=
  (s.active_output = 0 ∨ s.active_output = 1) ∧
    (1 ≤ s.config.output.a.screen_index ∧ s.config.output.a.screen_index ≤ 255) ∧
    (1 ≤ s.config.output.b.screen_index ∧ s.config.output.b.screen_index ≤ 255) ∧
    s.config.output.a.screen_count ≤ 255 ∧ s.config.output.b.screen_count ≤ 255 ∧
    relative_mode_inv s

/-! ## Invariants of the data model (§3) -/

/-- The border lies inside `[0, 32767]` and `bottom > top`. -/
abbrev border_ok (o : output_t) : Prop :=
  o.border.top ≤ 32767 ∧ o.border.bottom ≤ 32767 ∧ o.border.top < o.border.bottom

/-- The active desktop is one of the output's desktops: `1 ≤ screen_index ≤ screen_count`. -/
abbrev screen_index_ok (o : output_t) : Prop :=
  1 ≤ o.screen_index ∧ o.screen_index ≤ o.screen_count

/-- Both outputs satisfy the invariants of §3. -/
abbrev config_ok (c : config_t) : Prop :=
  border_ok c.output.a ∧ border_ok c.output.b ∧
    screen_index_ok c.output.a ∧ screen_index_ok c.output.b

/-- The pointer coordinates lie in `[0, 32767]`. -/
abbrev coord_ok (s : device_t) : Prop :=
  0 ≤ s.mouse_x ∧ s.mouse_x ≤ 32767 ∧ 0 ≤ s.mouse_y ∧ s.mouse_y ≤ 32767

/-! ## A concrete session -/

/-- A choice of values for the macros of `user_config.h`. -/
def sample_user_config_h : user_config_h :=
  { KBD_LED_AS_INDICATOR := false
    HOTKEY_TOGGLE := 115
    JUMP_THRESHOLD := 0
    ENABLE_ACCELERATION := true
    ENFORCE_PORTS := false
    MOUSE_SPEED_A_FACTOR_X := 16
    MOUSE_SPEED_A_FACTOR_Y := 16
    OUTPUT_A_OS := LINUX
    SCREENSAVER_A_ENABLED := false
    SCREENSAVER_A_ONLY_IF_INACTIVE := false
    SCREENSAVER_A_IDLE_TIME_SEC := 240
    SCREENSAVER_A_MAX_TIME_SEC := 0
    MOUSE_SPEED_B_FACTOR_X := 16
    MOUSE_SPEED_B_FACTOR_Y := 16
    OUTPUT_B_OS := WINDOWS
    SCREENSAVER_B_ENABLED := false
    SCREENSAVER_B_ONLY_IF_INACTIVE := false
    SCREENSAVER_B_IDLE_TIME_SEC := 240
    SCREENSAVER_B_MAX_TIME_SEC := 0 }

/-- A board in the role of output A. -/
def sample_board : board_t :=
  { BOARD_ROLE := 0, MOUSE_ZOOM_SCALING_FACTOR := 2, MOUSE_QUEUE_LENGTH := 8, time_us_64 := 1000 }

/-- A session running `user_config`: output A is active, the pointer rests at
`(x, y)`, no button is held and switching is not locked. -/
def sample_state (x y : Int) : device_t :=
  { config := user_config sample_user_config_h
    active_output := 0
    mouse_x := x
    mouse_y := y
    mouse_buttons := 0
    switch_lock := false
    relative_mouse := false
    mouse_zoom := false
    tud_connected := true
    last_activity := { a := 0, b := 0 }
    mouse_queue := []
    uart_tx := []
    reports_out := [] }

/-- Report values that move the pointer by `dx` horizontally. -/
def sample_values (dx : Int) : mouse_values_t :=
  { move_x := dx, move_y := 0, wheel := 0, buttons := 0 }

/-- The session `sample_state x y` with the border of output B narrowed to
`[4000, 28000]`. -/
def narrow_state (x y : Int) : device_t :=
  { sample_state x y with
    config := { (sample_state x y).config with
      output := (sample_state x y).config.output.set 1
        { (sample_state x y).config.output.b with border := { top := 4000, bottom := 28000 } } } }

/-- The session `sample_state x y` with output B active and three desktops on
output B. -/
def desktops_state (x y : Int) : device_t :=
  { sample_state x y with
    active_output := 1
    config := { (sample_state x y).config with
      output := (sample_state x y).config.output.set 1
        { (sample_state x y).config.output.b with screen_count := 3 } } }

/-- A 32-bit checksum in the sense of §6: a weighted sum of fields of the
configuration, reduced to 32 bits. -/
def sample_checksum (c : config_t) : Nat :=
  (c.version + 3 * c.hotkey_toggle + 5 * c.jump_threshold + 7 * c.output.a.border.bottom +
    11 * c.output.b.border.bottom + 13 * c.output.a.speed_x + 17 * c.output.b.speed_x) %
      4294967296

/-- The session `sample_state 0 0` with `jump_threshold` changed to `7`. -/
def tuned_state : device_t :=
  { sample_state 0 0 with config := { (sample_state 0 0).config with jump_threshold := 7 } }

/-- A transport that is awake and delivers every report. -/
def sample_usb : usb_host_t :=
  { tud_suspended := false, tud_mouse_report := fun _ => true }

/-- The session `sample_state 0 0` with the screensaver of output A enabled and idle
since time `0`. -/
def idle_state : device_t :=
  { sample_state 0 0 with
    config := { (sample_state 0 0).config with
      output := (sample_state 0 0).config.output.set 0
        { (sample_state 0 0).config.output.a with
          screensaver :=
            { enabled := true, only_if_inactive := false, idle_time_us := 500,
              max_time_us := 0 } } } }

/-- A board in the role of output A whose clock reads `t`. -/
def board_at (t : Nat) : board_t := { sample_board with time_us_64 := t }

/-- The session `sample_state 0 0` with output A running macOS and showing the second
of its three desktops. -/
def macos_state : device_t :=
  { sample_state 0 0 with
    config := { (sample_state 0 0).config with
      output := (sample_state 0 0).config.output.set 0
        { (sample_state 0 0).config.output.a with
          os := MACOS, screen_count := 3, screen_index := 2 } } }

/-- A text configuration that names every field. -/
def sample_text : ini_file_t :=
  [ (("core", "kbd_led_as_indicator"), ini_value.flag true),
    (("core", "hotkey_toggle"), ini_value.num 70),
    (("core", "jump_threshold"), ini_value.num 500),
    (("core", "enable_acceleration"), ini_value.flag false),
    (("core", "enforce_ports"), ini_value.flag true),
    (("output_a", "screen_count"), ini_value.num 2),
    (("output_a", "speed_x"), ini_value.num 20),
    (("output_a", "speed_y"), ini_value.num 21),
    (("output_a", "os"), ini_value.word "macos"),
    (("output_a", "position"), ini_value.word "left"),
    (("output_a.border", "top"), ini_value.num 100),
    (("output_a.border", "bottom"), ini_value.num 30000),
    (("output_a.screensaver", "enabled"), ini_value.flag true),
    (("output_a.screensaver", "only_if_inactive"), ini_value.flag true),
    (("output_a.screensaver", "idle_time_sec"), ini_value.num 60),
    (("output_a.screensaver", "max_time_sec"), ini_value.num 600),
    (("output_b", "screen_count"), ini_value.num 3),
    (("output_b", "speed_x"), ini_value.num 30),
    (("output_b", "speed_y"), ini_value.num 31),
    (("output_b", "os"), ini_value.word "windows"),
    (("output_b", "position"), ini_value.word "right"),
    (("output_b.border", "top"), ini_value.num 200),
    (("output_b.border", "bottom"), ini_value.num 20000),
    (("output_b.screensaver", "enabled"), ini_value.flag false),
    (("output_b.screensaver", "only_if_inactive"), ini_value.flag false),
    (("output_b.screensaver", "idle_time_sec"), ini_value.num 120),
    (("output_b.screensaver", "max_time_sec"), ini_value.num 1200) ]

/-- The text that `export` writes into an empty file from the binary file that `import`
wrote for `sample_text`. -/
def sample_round_trip : Nat × ini_file_t :=
  tool_export sample_checksum []
    (tool_import sample_user_config_h sample_checksum sample_text).2

/-- The session `idle_state` with a maximal screensaver time of `1000` microseconds. -/
def expiring_state : device_t :=
  { idle_state with
    config := { idle_state.config with
      output := idle_state.config.output.set 0
        { idle_state.config.output.a with
          screensaver :=
            { enabled := true, only_if_inactive := false, idle_time_us := 500,
              max_time_us := 1000 } } } }

/-- The session `sample_state 32760 0` with a jump threshold of `50`. -/
def threshold_state : device_t :=
  { sample_state 32760 0 with
    config := { (sample_state 32760 0).config with jump_threshold := 50 } }

/-! ## Machine integer lemmas -/

theorem to_int32_eq_self (x : Int) (h1 : -2147483648 ≤ x) (h2 : x ≤ 2147483647) :
    to_int32 x = x := by
  unfold to_int32 wrap_signed
  norm_num
  omega

theorem to_int16_eq_self (x : Int) (h1 : -32768 ≤ x) (h2 : x ≤ 32767) :
    to_int16 x = x := by
  unfold to_int16 wrap_signed
  norm_num
  omega

theorem to_uint8_eq_self (n : Int) (h0 : 0 ≤ n) (h1 : n ≤ 255) : ((to_uint8 n : Nat) : Int) = n := by
  unfold to_uint8
  omega

/-! ## Position tracker -/

theorem move_and_keep_on_screen_range (position offset : Int) :
    0 ≤ move_and_keep_on_screen position offset ∧
      move_and_keep_on_screen position offset ≤ 32767 := by
  unfold move_and_keep_on_screen MIN_SCREEN_COORD MAX_SCREEN_COORD
  split_ifs <;> omega

/-- C1: when `position + offset` fits in 32 bits, `move_and_keep_on_screen` returns
`position + offset` clamped to `[0, 32767]`; its result lies in `[0, 32767]` for all
arguments; `move_and_keep_on_screen(32760, 100) = 32767` and
`move_and_keep_on_screen(5, -20) = 0`. -/
theorem move_and_keep_on_screen_clamp (position offset : Int)
    (hlo : -2147483648 ≤ position + offset) (hhi : position + offset ≤ 2147483647) :
    move_and_keep_on_screen position offset = clamp (position + offset) 0 32767 ∧
      (∀ p o : Int, 0 ≤ move_and_keep_on_screen p o ∧ move_and_keep_on_screen p o ≤ 32767) ∧
      move_and_keep_on_screen 32760 100 = 32767 ∧
      move_and_keep_on_screen 5 (-20) = 0 := by
  refine ⟨?_, move_and_keep_on_screen_range, by decide, by decide⟩
  unfold move_and_keep_on_screen MIN_SCREEN_COORD MAX_SCREEN_COORD clamp
  rw [to_int32_eq_self _ hlo hhi]
  split_ifs <;> omega

theorem move_and_keep_on_screen_clamp_witness :
    (-2147483648 ≤ (32760 : Int) + 100 ∧ (32760 : Int) + 100 ≤ 2147483647) ∧
      move_and_keep_on_screen 32760 100 = clamp (32760 + 100) 0 32767 :=
  ⟨by decide, (move_and_keep_on_screen_clamp 32760 100 (by decide) (by decide)).1⟩

/-! ## Acceleration transform -/

theorem bit_length_aux_bounds (fuel : Nat) : ∀ n : Nat, n ≤ fuel → 0 < n →
    2 ^ (bit_length_aux fuel n - 1) ≤ n ∧ n < 2 ^ bit_length_aux fuel n := by
  induction fuel with
  | zero => intro n h1 h2; omega
  | succ f ih =>
    intro n h1 h2
    have hn : n ≠ 0 := by omega
    simp only [bit_length_aux, hn, if_false]
    by_cases h : n / 2 = 0
    · have h1 : n = 1 := by omega
      subst h1
      cases f <;> simp [bit_length_aux]
    · have hpos : 0 < n / 2 := Nat.pos_of_ne_zero h
      obtain ⟨ha, hb⟩ := ih (n / 2) (by omega) hpos
      have hb1 : 1 ≤ bit_length_aux f (n / 2) := by
        rcases Nat.eq_zero_or_pos (bit_length_aux f (n / 2)) with h0 | h0
        · rw [h0] at hb; simp at hb; omega
        · exact h0
      constructor
      · have : bit_length_aux f (n / 2) + 1 - 1 = (bit_length_aux f (n / 2) - 1) + 1 := by omega
        rw [this, pow_succ]; omega
      · rw [pow_succ]; omega

theorem bit_length_bounds (n : Nat) (h : 0 < n) :
    2 ^ (bit_length n - 1) ≤ n ∧ n < 2 ^ bit_length n :=
  bit_length_aux_bounds n n (le_refl n) h

theorem round_bits_of_dvd (p a : Nat) (h : 2 ^ (bit_length a - p) ∣ a) : round_bits p a = a := by
  unfold round_bits
  split_ifs with h1
  · rfl
  · simp only
    have hr : a % 2 ^ (bit_length a - p) = 0 := Nat.mod_eq_zero_of_dvd h
    have hpos : 0 < 2 ^ (bit_length a - p - 1) := Nat.two_pow_pos _
    rw [hr, if_neg (by omega)]
    exact Nat.div_mul_cancel h

theorem round_bits_mul_pow (p a j : Nat) (hp : 0 < p) (ha : a ≤ 2 ^ p) :
    round_bits p (a * 2 ^ j) = a * 2 ^ j := by
  rcases Nat.eq_zero_or_pos a with h0 | h0
  · subst h0; simp [round_bits]
  apply round_bits_of_dvd
  have hn : 0 < a * 2 ^ j := Nat.mul_pos h0 (Nat.two_pow_pos _)
  obtain ⟨hlo, _⟩ := bit_length_bounds (a * 2 ^ j) hn
  rcases Nat.lt_or_ge a (2 ^ p) with hlt | hge
  · have h2 : a * 2 ^ j < 2 ^ (p + j) := by
      rw [pow_add]; exact Nat.mul_lt_mul_of_pos_right hlt (Nat.two_pow_pos _)
    have h3 : bit_length (a * 2 ^ j) - 1 < p + j := by
      apply (Nat.pow_lt_pow_iff_right (by norm_num : 1 < 2)).1
      omega
    have h4 : bit_length (a * 2 ^ j) - p ≤ j := by omega
    exact Dvd.dvd.mul_left (Nat.pow_dvd_pow 2 h4) a
  · have hap : a = 2 ^ p := le_antisymm ha hge
    subst hap
    rw [← pow_add] at hlo ⊢
    have h3 : bit_length (2 ^ (p + j)) - 1 ≤ p + j := by
      apply (Nat.pow_le_pow_iff_right (by norm_num : 1 < 2)).1
      exact hlo
    exact Nat.pow_dvd_pow 2 (by omega)


theorem round_sig_mul_pow (n : Int) (j : Nat) (h : n.natAbs ≤ 16777216) :
    round_sig 24 (n * ((2 ^ j : Nat) : Int)) = n * ((2 ^ j : Nat) : Int) := by
  have hr : round_bits 24 (n.natAbs * 2 ^ j) = n.natAbs * 2 ^ j :=
    round_bits_mul_pow 24 n.natAbs j (by norm_num) (by norm_num; exact h)
  have habs : (n * ((2 ^ j : Nat) : Int)).natAbs = n.natAbs * 2 ^ j := by
    rw [Int.natAbs_mul, Int.natAbs_ofNat]
  unfold round_sig
  rw [habs, hr]
  have hpos : (0 : Int) < ((2 ^ j : Nat) : Int) := by exact_mod_cast Nat.two_pow_pos j
  split_ifs with hneg
  · have hn : n < 0 := by
      by_contra hc
      have := Int.mul_nonneg (not_lt.1 hc) (le_of_lt hpos)
      omega
    rw [Nat.cast_mul, Int.ofNat_natAbs_of_nonpos (le_of_lt hn)]
    ring
  · have hn : 0 ≤ n := by
      by_contra hc
      have := Int.mul_neg_of_neg_of_pos (not_le.1 hc) hpos
      omega
    rw [Nat.cast_mul, Int.natAbs_of_nonneg hn]

theorem trunc_toward_zero_mul_div (n : Int) (a k : Nat) (hk : 0 < k) :
    trunc_toward_zero ((n : ℚ) * ((a : ℚ) / (k : ℚ))) = Int.tdiv (n * a) k := by
  have hkq : (0 : ℚ) < (k : ℚ) := by exact_mod_cast hk
  have e : (n : ℚ) * ((a : ℚ) / (k : ℚ)) = (((n * a : Int)) : ℚ) / (k : ℚ) := by
    push_cast; ring
  rw [e]
  generalize n * (a : Int) = m
  unfold trunc_toward_zero
  split_ifs with h
  · have hm : 0 ≤ m := by
      have := (div_nonneg_iff.1 h)
      rcases this with ⟨h1, _⟩ | ⟨_, h2⟩
      · exact_mod_cast h1
      · linarith
    rw [Rat.floor_intCast_div_natCast, Int.tdiv_eq_ediv hm (by omega)]
  · have hm : m < 0 := by
      by_contra hc
      apply h
      apply div_nonneg _ (le_of_lt hkq)
      exact_mod_cast (not_lt.1 hc)
    have e2 : ((m : ℚ) / (k : ℚ)) = -((((-m : Int)) : ℚ) / (k : ℚ)) := by push_cast; ring
    rw [e2, Int.ceil_neg, Rat.floor_intCast_div_natCast]
    have : m = -(-m) := by ring
    conv_rhs => rw [this, Int.neg_tdiv, Int.tdiv_eq_ediv (by omega : (0:Int) ≤ -m) (by omega)]



/-- The value `accelerate` returns once acceleration is enabled. -/
theorem accelerate_enabled (state : device_t) (d : Int)
    (h : state.config.enable_acceleration = true) :
    accelerate state d =
      (accelerate_loop d acceleration).getD
        (scale_offset d (double_to_float (double_literal 4 1))) := by
  unfold accelerate
  rw [h]
  cases accelerate_loop d acceleration <;> rfl

theorem accelerate_loop_large (d : Int) (h : 70 ≤ d.natAbs) :
    accelerate_loop d acceleration = none := by
  unfold acceleration
  simp only [accelerate_loop]
  split_ifs <;> first | rfl | omega

theorem spec_multiplier_large (d : Int) (h : 70 ≤ d.natAbs) : spec_multiplier d = 40 := by
  have e : (spec_breakpoints.zip spec_tenths).find?
      (fun p => decide ((d.natAbs : Int) < p.1)) = none := by
    rw [List.find?_eq_none]
    intro p hp
    simp only [spec_breakpoints, spec_tenths, List.zip_cons_cons, List.zip_nil_right,
      List.mem_cons, List.not_mem_nil, or_false] at hp
    rcases hp with h | h | h | h | h | h | h <;>
      (rw [h]; simp only [decide_eq_true_eq]; omega)
  unfold spec_multiplier
  rw [e]

theorem accelerate_small (d : Int) (h1 : -69 ≤ d) (h2 : d ≤ 69) :
    (accelerate_loop d acceleration).getD
        (scale_offset d (double_to_float (double_literal 4 1))) =
      Int.tdiv (d * (spec_multiplier d : Int)) 10 := by
  interval_cases d <;> decide

/-- Inside the range of `int32_t` the conversion is the truncation. -/
theorem float_to_int32_of_range (x : float_t) (h : float_in_int32_range x) :
    float_to_int32 x = float_trunc x := by
  unfold float_to_int32
  rw [if_pos h]

/-- The truncated product of a delta and the factor `4.0`. -/
theorem float_trunc_times_four (d : Int) :
    float_trunc (float_mul (int_to_float d) (double_to_float (double_literal 4 1))) =
      Int.tdiv (round_sig 24 (round_sig 24 d * 4503599627370496)) 1125899906842624 := by
  rw [show double_to_float (double_literal 4 1) = ⟨4503599627370496, -50⟩ by decide]
  simp only [int_to_float, float_mul, float_trunc]
  have e1 : ¬ ((0 : Int) ≤ 0 + -50) := by decide
  have e2 : (-(0 + -50 : Int)).toNat = 50 := by decide
  rw [if_neg e1, e2]
  norm_num

/-- Up to `2^24` the delta and its product with `4.0` are exact in `float`. -/
theorem scale_offset_four_exact (d : Int) (hd : d.natAbs ≤ 16777216) :
    float_trunc (float_mul (int_to_float d) (double_to_float (double_literal 4 1))) = d * 4 ∧
      scale_offset d (double_to_float (double_literal 4 1)) = d * 4 := by
  have h1 := round_sig_mul_pow d 0 hd
  simp only [pow_zero, Nat.cast_one, mul_one] at h1
  have h2 := round_sig_mul_pow d 52 hd
  have e52 : (((2 ^ 52 : Nat) : Int)) = 4503599627370496 := by norm_num
  rw [e52] at h2
  have t : float_trunc (float_mul (int_to_float d) (double_to_float (double_literal 4 1))) =
      d * 4 := by
    rw [float_trunc_times_four, h1, h2]
    have e : d * 4503599627370496 = d * 4 * 1125899906842624 := by ring
    rw [e, Int.mul_tdiv_cancel _ (by norm_num)]
  refine ⟨t, ?_⟩
  unfold scale_offset
  rw [float_to_int32_of_range _ (by rw [float_in_int32_range, t]; omega), t]

/-- C3, as the code has it: `accelerate` is the Acceleration Transform of §4.1 for the
deltas with `|d| ≤ 2^24 = 16777216`, those a `float` holds exactly.  With acceleration
disabled `accelerate(e) = e` for every delta `e`.  With it enabled and `|d| ≤ 2^24`,
`accelerate(d)` is `d * m` truncated toward zero, `m` being the multiplier paired with
the first breakpoint strictly greater than `|d|` (`4.0` when there is none).
`accelerate(1) = 1`, `accelerate(10) = 14`, `accelerate(100) = 400`, `accelerate(2) = 2`. -/
theorem accelerate_eq_spec (state : device_t) (d : Int) (hd : d.natAbs ≤ 16777216) :
    accelerate state d = accelerate_spec state.config.enable_acceleration d ∧
      (∀ e : Int, state.config.enable_acceleration = false → accelerate state e = e) ∧
      (state.config.enable_acceleration = true →
        accelerate state d =
          trunc_toward_zero ((d : ℚ) * ((spec_multiplier d : ℚ) / 10))) ∧
      (state.config.enable_acceleration = true →
        accelerate state 1 = 1 ∧ accelerate state 10 = 14 ∧ accelerate state 100 = 400 ∧
          accelerate state 2 = 2) := by
  have hoff : ∀ e : Int, state.config.enable_acceleration = false → accelerate state e = e := by
    intro e h
    simp [accelerate, h]
  have hon : state.config.enable_acceleration = true →
      accelerate state d = trunc_toward_zero ((d : ℚ) * ((spec_multiplier d : ℚ) / 10)) := by
    intro h
    rw [accelerate_enabled state d h, show ((10 : ℚ)) = ((10 : Nat) : ℚ) by norm_num,
      trunc_toward_zero_mul_div d (spec_multiplier d) 10 (by norm_num)]
    by_cases hs : d.natAbs < 70
    · exact accelerate_small d (by omega) (by omega)
    · rw [accelerate_loop_large d (by omega), spec_multiplier_large d (by omega)]
      simp only [Option.getD_none]
      rw [(scale_offset_four_exact d hd).2]
      have e : d * ((40 : Nat) : Int) = d * 4 * ((10 : Nat) : Int) := by
        push_cast; ring
      rw [e, Int.mul_tdiv_cancel _ (by norm_num)]
  refine ⟨?_, hoff, hon, ?_⟩
  · cases h : state.config.enable_acceleration
    · rw [hoff d h]; rfl
    · rw [hon h]; rfl
  · intro h
    simp only [accelerate_enabled state _ h]
    decide

theorem accelerate_eq_spec_witness :
    accelerate (sample_state 0 0) 10 =
        accelerate_spec (sample_state 0 0).config.enable_acceleration 10 ∧
      accelerate (sample_state 0 0) 10 = 14 ∧
      accelerate (sample_state 0 0) (-16777216) = -67108864 :=
  ⟨(accelerate_eq_spec (sample_state 0 0) 10 (by decide)).1, by decide, by decide⟩

/-- C3, the sentence as written: it fails at `d = 2^24 + 1 = 16777217`.  The delta is
not a `float`: the conversion rounds it to `2^24`, and `accelerate` returns
`4 * 2^24 = 67108864`, four less than `d * 4.0 = 67108868`. -/
theorem accelerate_eq_spec_counterexample :
    (sample_state 0 0).config.enable_acceleration = true ∧
      accelerate (sample_state 0 0) 16777217 = 67108864 ∧
      accelerate_spec true 16777217 = 67108868 ∧
      accelerate (sample_state 0 0) 16777217 ≠
        accelerate_spec (sample_state 0 0).config.enable_acceleration 16777217 := by
  have e : accelerate_spec true 16777217 = 67108868 := by
    unfold accelerate_spec accelerate_exact
    rw [if_pos rfl]
    rw [show ((10 : ℚ)) = ((10 : Nat) : ℚ) by norm_num]
    rw [trunc_toward_zero_mul_div 16777217 (spec_multiplier 16777217) 10 (by norm_num)]
    decide
  have a : accelerate (sample_state 0 0) 16777217 = 67108864 := by decide
  have en : (sample_state 0 0).config.enable_acceleration = true := by decide
  refine ⟨en, a, e, ?_⟩
  rw [en, a, e]
  decide

/-! ## Coordinate mapper -/

theorem tdiv_bounds (n c b : Int) (hn : 0 ≤ n) (hc : 0 < c) (hb : n ≤ b * c) :
    Int.tdiv n c = n / c ∧ 0 ≤ n / c ∧ n / c ≤ b := by
  refine ⟨Int.tdiv_eq_ediv hn (le_of_lt hc), Int.ediv_nonneg hn (le_of_lt hc), ?_⟩
  exact Int.ediv_le_of_le_mul hc hb

theorem scale_y_coordinate_eq_mapper (state : device_t) (screen_from screen_to : Int)
    (hfrom : border_ok (state.config.output.get screen_from))
    (hto : border_ok (state.config.output.get screen_to))
    (hy0 : 0 ≤ state.mouse_y) (hy1 : state.mouse_y ≤ 32767) :
    scale_y_coordinate screen_from screen_to state =
      coordinate_mapper (state.config.output.get screen_from)
        (state.config.output.get screen_to) state.mouse_y := by
  obtain ⟨hf1, hf2, hf3⟩ := hfrom
  obtain ⟨ht1, ht2, ht3⟩ := hto
  unfold scale_y_coordinate coordinate_mapper MAX_SCREEN_COORD MIN_SCREEN_COORD
  simp only
  generalize (state.config.output.get screen_from).border.top = tf at *
  generalize (state.config.output.get screen_from).border.bottom = bf at *
  generalize (state.config.output.get screen_to).border.top = tt at *
  generalize (state.config.output.get screen_to).border.bottom = bt at *
  generalize state.mouse_y = y at *
  split_ifs with h1 h2 h3 h4
  · exact to_int16_eq_self y (by omega) (by omega)
  · have hs : (0 : Int) ≤ (bt : Int) - (tt : Int) := by omega
    have hp0 : 0 ≤ ((bt : Int) - (tt : Int)) * y := Int.mul_nonneg hs hy0
    have hp1 : ((bt : Int) - (tt : Int)) * y ≤ ((bt : Int) - (tt : Int)) * 32767 :=
      Int.mul_le_mul_of_nonneg_left hy1 hs
    generalize ((bt : Int) - (tt : Int)) * y = P at *
    rw [to_int32_eq_self P (by omega) (by omega)]
    obtain ⟨e, q0, q1⟩ := tdiv_bounds P 32767 ((bt : Int) - (tt : Int)) hp0 (by norm_num) hp1
    rw [e]
    exact to_int16_eq_self _ (by omega) (by omega)
  · exact to_int16_eq_self 0 (by norm_num) (by norm_num)
  · exact to_int16_eq_self 32767 (by norm_num) (by norm_num)
  · rw [to_int32_eq_self _ (by omega) (by omega)]
    obtain ⟨e, q0, q1⟩ := tdiv_bounds ((y - (tf : Int)) * 32767) ((bf : Int) - (tf : Int)) 32767
      (by omega) (by omega) (by omega)
    rw [e]
    exact to_int16_eq_self _ (by omega) q1

theorem coordinate_mapper_range (source dest : output_t) (y : Int)
    (hfrom : border_ok source) (hto : border_ok dest) (hy0 : 0 ≤ y) (hy1 : y ≤ 32767) :
    0 ≤ coordinate_mapper source dest y ∧ coordinate_mapper source dest y ≤ 32767 := by
  obtain ⟨hf1, hf2, hf3⟩ := hfrom
  obtain ⟨ht1, ht2, ht3⟩ := hto
  unfold coordinate_mapper
  simp only
  split_ifs with h1 h2 h3 h4
  · exact ⟨hy0, hy1⟩
  · have hs : (0 : Int) ≤ (dest.border.bottom : Int) - (dest.border.top : Int) := by omega
    have hp0 := Int.mul_nonneg hs hy0
    have hp1 := Int.mul_le_mul_of_nonneg_left hy1 hs
    obtain ⟨e, q0, q1⟩ := tdiv_bounds _ 32767 _ hp0 (by norm_num) hp1
    rw [e]
    omega
  · omega
  · omega
  · obtain ⟨e, q0, q1⟩ := tdiv_bounds ((y - (source.border.top : Int)) * 32767)
      ((source.border.bottom : Int) - (source.border.top : Int)) 32767
      (by omega) (by omega) (by omega)
    rw [e]
    exact ⟨q0, q1⟩

/-- C4: under the invariants of the data model (both borders inside `[0, 32767]` with
`bottom > top`, `mouse_y` in `[0, 32767]`) `scale_y_coordinate` is the three-case
Coordinate Mapper of §4.3: the identity for equal sizes, `to.top + (size_to * y) / 32767`
when `size_from > size_to`, and otherwise `0` below the source border, `32767` above
it and `((y - from.top) * 32767) / size_from` inside it, with truncating division. -/
theorem scale_y_coordinate_three_cases (state : device_t) (screen_from screen_to : Int)
    (hfrom : border_ok (state.config.output.get screen_from))
    (hto : border_ok (state.config.output.get screen_to))
    (hy0 : 0 ≤ state.mouse_y) (hy1 : state.mouse_y ≤ 32767) :
    scale_y_coordinate screen_from screen_to state =
      coordinate_mapper (state.config.output.get screen_from)
        (state.config.output.get screen_to) state.mouse_y :=
  scale_y_coordinate_eq_mapper state screen_from screen_to hfrom hto hy0 hy1

/-- C5: for outputs with borders inside `[0, 32767]`, `bottom > top` and
`size_from > size_to`, and `mouse_y` in `[0, 32767]`, the result of
`scale_y_coordinate` lies in `[to.border.top, to.border.top + size_to]`. -/
theorem scale_y_coordinate_shrink_range (state : device_t) (screen_from screen_to : Int)
    (hfrom : border_ok (state.config.output.get screen_from))
    (hto : border_ok (state.config.output.get screen_to))
    (hy0 : 0 ≤ state.mouse_y) (hy1 : state.mouse_y ≤ 32767)
    (hsize :
      ((state.config.output.get screen_from).border.bottom : Int) -
          ((state.config.output.get screen_from).border.top : Int) >
        ((state.config.output.get screen_to).border.bottom : Int) -
          ((state.config.output.get screen_to).border.top : Int)) :
    ((state.config.output.get screen_to).border.top : Int) ≤
        scale_y_coordinate screen_from screen_to state ∧
      scale_y_coordinate screen_from screen_to state ≤
        ((state.config.output.get screen_to).border.top : Int) +
          (((state.config.output.get screen_to).border.bottom : Int) -
            ((state.config.output.get screen_to).border.top : Int)) := by
  rw [scale_y_coordinate_eq_mapper state screen_from screen_to hfrom hto hy0 hy1]
  obtain ⟨ht1, ht2, ht3⟩ := hto
  unfold coordinate_mapper
  simp only
  rw [if_neg (by omega), if_pos hsize]
  have hs : (0 : Int) ≤ ((state.config.output.get screen_to).border.bottom : Int) -
      ((state.config.output.get screen_to).border.top : Int) := by omega
  have hp0 := Int.mul_nonneg hs hy0
  have hp1 := Int.mul_le_mul_of_nonneg_left hy1 hs
  obtain ⟨e, q0, q1⟩ := tdiv_bounds _ 32767 _ hp0 (by norm_num) hp1
  rw [e]
  omega

/-! ## Frame lemmas -/

theorem per_output_get_cases {α : Type} (arr : per_output α) (i : Int) :
    arr.get i = arr.a ∨ arr.get i = arr.b := by
  unfold per_output.get
  split_ifs
  · exact Or.inl rfl
  · exact Or.inr rfl

theorem per_output_get_set {α : Type} (arr : per_output α) (i : Int) (v : α) :
    (arr.set i v).get i = v := by
  unfold per_output.get per_output.set
  split_ifs <;> rfl

theorem config_ok_border (c : config_t) (h : config_ok c) (i : Int) :
    border_ok (c.output.get i) := by
  rcases per_output_get_cases c.output i with e | e <;> rw [e]
  · exact h.1
  · exact h.2.1

theorem output_mouse_report_frame (hw : board_t) (r : mouse_report_t) (s : device_t) :
    (output_mouse_report hw r s).config = s.config ∧
      (output_mouse_report hw r s).active_output = s.active_output ∧
      (output_mouse_report hw r s).mouse_x = s.mouse_x ∧
      (output_mouse_report hw r s).mouse_y = s.mouse_y ∧
      (output_mouse_report hw r s).mouse_buttons = s.mouse_buttons ∧
      (output_mouse_report hw r s).switch_lock = s.switch_lock ∧
      (output_mouse_report hw r s).relative_mouse = s.relative_mouse ∧
      (output_mouse_report hw r s).reports_out = s.reports_out ++ [r] := by
  unfold output_mouse_report queue_mouse_report
  simp only
  split_ifs <;> simp

theorem scale_y_coordinate_congr (s1 s2 : device_t) (i j : Int)
    (hc : s1.config = s2.config) (hy : s1.mouse_y = s2.mouse_y) :
    scale_y_coordinate i j s1 = scale_y_coordinate i j s2 := by
  unfold scale_y_coordinate
  rw [hc, hy]

theorem scale_y_coordinate_range (state : device_t) (i j : Int)
    (hcfg : config_ok state.config) (hy0 : 0 ≤ state.mouse_y) (hy1 : state.mouse_y ≤ 32767) :
    0 ≤ scale_y_coordinate i j state ∧ scale_y_coordinate i j state ≤ 32767 := by
  rw [scale_y_coordinate_eq_mapper state i j (config_ok_border _ hcfg i)
    (config_ok_border _ hcfg j) hy0 hy1]
  exact coordinate_mapper_range _ _ _ (config_ok_border _ hcfg i) (config_ok_border _ hcfg j)
    hy0 hy1

/-- What `switch_screen` leaves behind, field by field. -/
theorem switch_screen_fields (hw : board_t) (state : device_t)
    (output new_x output_from output_to direction : Int) :
    (switch_screen hw state output new_x output_from output_to direction).config = state.config ∧
      (switch_screen hw state output new_x output_from output_to direction).active_output =
        output_to ∧
      (switch_screen hw state output new_x output_from output_to direction).mouse_x =
        (if direction = LEFT then 32767 else 0) ∧
      (switch_screen hw state output new_x output_from output_to direction).mouse_y =
        scale_y_coordinate ((state.config.output.get output).number : Int)
          (1 - ((state.config.output.get output).number : Int)) state ∧
      (switch_screen hw state output new_x output_from output_to direction).relative_mouse =
        state.relative_mouse ∧
      (switch_screen hw state output new_x output_from output_to direction).reports_out =
        state.reports_out ++ [hidden_pointer] := by
  obtain ⟨h1, h2, h3, h4, h5, h6, h7, h8⟩ := output_mouse_report_frame hw hidden_pointer state
  refine ⟨h1, rfl, rfl, ?_, h7, h8⟩
  show scale_y_coordinate _ _ _ = _
  simp only [switch_output, h1]
  exact scale_y_coordinate_congr _ _ _ _ rfl h4

theorem switch_desktop_os_fields (hw : board_t) (state : device_t)
    (output new_index direction : Int) :
    (switch_desktop_os hw state output new_index direction).config = state.config ∧
      (switch_desktop_os hw state output new_index direction).active_output =
        state.active_output ∧
      (switch_desktop_os hw state output new_index direction).mouse_y = state.mouse_y ∧
      (switch_desktop_os hw state output new_index direction).relative_mouse =
        (if (state.config.output.get output).os = WINDOWS then decide (new_index > 1)
          else state.relative_mouse) := by
  obtain ⟨a1, a2, a3, a4, a5, a6, a7, a8⟩ :=
    output_mouse_report_frame hw (move_relative_one direction) state
  obtain ⟨b1, b2, b3, b4, b5, b6, b7, b8⟩ :=
    output_mouse_report_frame hw (move_relative_one direction)
      (output_mouse_report hw (move_relative_one direction) state)
  unfold switch_desktop_os
  simp only
  by_cases h1 : (state.config.output.get output).os = MACOS
  · have h2 : ¬ (state.config.output.get output).os = WINDOWS := by
      rw [h1]; decide
    rw [if_pos h1, if_neg h2]
    exact ⟨b1.trans a1, b2.trans a2, b4.trans a4, b7.trans a7⟩
  · rw [if_neg h1]
    by_cases h2 : (state.config.output.get output).os = WINDOWS
    · rw [if_pos h2, if_pos h2]
      exact ⟨rfl, rfl, rfl, rfl⟩
    · rw [if_neg h2, if_neg h2]
      exact ⟨rfl, rfl, rfl, rfl⟩

/-- What `switch_desktop` leaves behind, field by field. -/
theorem switch_desktop_fields (hw : board_t) (state : device_t)
    (output new_index direction : Int) :
    (switch_desktop hw state output new_index direction).config =
        { state.config with output := (state.config.output.set output
            { (state.config.output.get output) with screen_index := to_uint8 new_index }) } ∧
      (switch_desktop hw state output new_index direction).active_output =
        state.active_output ∧
      (switch_desktop hw state output new_index direction).mouse_x =
        (if direction = RIGHT then 0 else 32767) ∧
      (switch_desktop hw state output new_index direction).mouse_y = state.mouse_y ∧
      (switch_desktop hw state output new_index direction).relative_mouse =
        (if (state.config.output.get output).os = WINDOWS then decide (new_index > 1)
          else state.relative_mouse) := by
  obtain ⟨c1, c2, c3, c4⟩ := switch_desktop_os_fields hw state output new_index direction
  refine ⟨?_, c2, rfl, c3, c4⟩
  show config_t.mk _ _ _ _ _ _ _ = _
  rw [c1]

/-! ## Switch state machine -/

/-- The three outcomes of `check_screen_switch`. -/
theorem check_screen_switch_cases (hw : board_t) (values : mouse_values_t) (state : device_t) :
    check_screen_switch hw values state = state ∨
      (∃ new_x direction, check_screen_switch hw values state =
        switch_screen hw state state.active_output new_x state.active_output
          (1 - state.active_output) direction) ∨
      (∃ new_index direction, check_screen_switch hw values state =
        switch_desktop hw state state.active_output new_index direction) := by
  unfold check_screen_switch
  simp only
  split_ifs <;>
    first
    | exact Or.inl rfl
    | exact Or.inr (Or.inl ⟨_, _, rfl⟩)
    | exact Or.inr (Or.inr ⟨_, _, rfl⟩)

theorem switch_screen_coord (hw : board_t) (state : device_t)
    (output new_x output_from output_to direction : Int)
    (hcfg : config_ok state.config) (hy0 : 0 ≤ state.mouse_y) (hy1 : state.mouse_y ≤ 32767) :
    coord_ok (switch_screen hw state output new_x output_from output_to direction) := by
  obtain ⟨_, _, hx, hy, _, _⟩ :=
    switch_screen_fields hw state output new_x output_from output_to direction
  obtain ⟨r0, r1⟩ := scale_y_coordinate_range state
    ((state.config.output.get output).number : Int)
    (1 - ((state.config.output.get output).number : Int)) hcfg hy0 hy1
  refine ⟨?_, ?_, ?_, ?_⟩
  · rw [hx]; split_ifs <;> norm_num
  · rw [hx]; split_ifs <;> norm_num
  · rw [hy]; exact r0
  · rw [hy]; exact r1

theorem switch_desktop_coord (hw : board_t) (state : device_t)
    (output new_index direction : Int) (hy0 : 0 ≤ state.mouse_y) (hy1 : state.mouse_y ≤ 32767) :
    coord_ok (switch_desktop hw state output new_index direction) := by
  obtain ⟨_, _, hx, hy, _⟩ := switch_desktop_fields hw state output new_index direction
  refine ⟨?_, ?_, ?_, ?_⟩
  · rw [hx]; split_ifs <;> norm_num
  · rw [hx]; split_ifs <;> norm_num
  · rw [hy]; exact hy0
  · rw [hy]; exact hy1

theorem check_screen_switch_coord (hw : board_t) (values : mouse_values_t) (state : device_t)
    (hcfg : config_ok state.config) (hxy : coord_ok state) :
    coord_ok (check_screen_switch hw values state) := by
  rcases check_screen_switch_cases hw values state with h | ⟨x, d, h⟩ | ⟨n, d, h⟩ <;> rw [h]
  · exact hxy
  · exact switch_screen_coord hw state _ _ _ _ _ hcfg hxy.2.2.1 hxy.2.2.2
  · exact switch_desktop_coord hw state _ _ _ hxy.2.2.1 hxy.2.2.2

theorem update_mouse_position_coord (hw : board_t) (state : device_t) (values : mouse_values_t) :
    coord_ok (update_mouse_position hw state values) ∧
      (update_mouse_position hw state values).config = state.config ∧
      (update_mouse_position hw state values).active_output = state.active_output := by
  exact ⟨⟨(move_and_keep_on_screen_range _ _).1, (move_and_keep_on_screen_range _ _).2,
    (move_and_keep_on_screen_range _ _).1, (move_and_keep_on_screen_range _ _).2⟩, rfl, rfl⟩

/-- C2: `mouse_x` and `mouse_y` stay in `[0, 32767]` across a whole report step.  For a
state with both coordinates in `[0, 32767]` and a configuration satisfying the
invariants of the data model, the state after
`update_mouse_position` followed by `check_screen_switch`, and the state after the
whole of `process_mouse_report`, have both coordinates in `[0, 32767]`; so have the
states produced by the output-switch and the desktop-switch branch. -/
theorem mouse_coordinates_stay_on_screen (hw : board_t) (state : device_t)
    (values : mouse_values_t) (hcfg : config_ok state.config) (hxy : coord_ok state) :
    coord_ok (check_screen_switch hw values (update_mouse_position hw state values)) ∧
      coord_ok (process_mouse_report hw values state) ∧
      (∀ output new_x output_from output_to direction : Int,
        coord_ok (switch_screen hw state output new_x output_from output_to direction)) ∧
      (∀ output new_index direction : Int,
        coord_ok (switch_desktop hw state output new_index direction)) := by
  obtain ⟨u1, u2, _⟩ := update_mouse_position_coord hw state values
  refine ⟨?_, ?_, ?_, ?_⟩
  · exact check_screen_switch_coord hw values _ (by rw [u2]; exact hcfg) u1
  · unfold process_mouse_report
    simp only
    obtain ⟨f1, _, f3, f4, _⟩ := output_mouse_report_frame hw
      (create_mouse_report (update_mouse_position hw state values) values)
      (update_mouse_position hw state values)
    apply check_screen_switch_coord
    · rw [f1, u2]; exact hcfg
    · unfold coord_ok
      rw [f3, f4]; exact u1
  · intro output new_x output_from output_to direction
    exact switch_screen_coord hw state _ _ _ _ _ hcfg hxy.2.2.1 hxy.2.2.2
  · intro output new_index direction
    exact switch_desktop_coord hw state _ _ _ hxy.2.2.1 hxy.2.2.2

/-- C7: `check_screen_switch` returns the state it was given (so `active_output`, both
`screen_index` values, `mouse_x`, `mouse_y`, `relative_mouse` and the emitted reports
are unchanged) whenever `switch_lock` is set, or `mouse_buttons` is non-zero, or
neither threshold is crossed, `0 - jump_threshold ≤ mouse_x + move_x ≤ 32767 +
jump_threshold`; `jump_threshold` is a `uint16_t`. -/
theorem check_screen_switch_noop (hw : board_t) (values : mouse_values_t) (state : device_t)
    (hthr : state.config.jump_threshold ≤ 65535)
    (h : state.switch_lock = true ∨ state.mouse_buttons ≠ 0 ∨
      (0 - (state.config.jump_threshold : Int) ≤ state.mouse_x + values.move_x ∧
        state.mouse_x + values.move_x ≤ 32767 + (state.config.jump_threshold : Int))) :
    check_screen_switch hw values state = state := by
  unfold check_screen_switch
  simp only
  rcases h with h | h | ⟨h1, h2⟩
  · rw [if_pos (by simp [h])]
  · rw [if_pos (by simp [h])]
  · by_cases hb : (state.switch_lock || decide (state.mouse_buttons ≠ 0)) = true
    · rw [if_pos hb]
    · rw [if_neg hb, to_int32_eq_self _ (by omega) (by omega), if_pos]
      simp only [MIN_SCREEN_COORD, MAX_SCREEN_COORD, Bool.and_eq_true, Bool.not_eq_true',
        decide_eq_false_iff_not]
      omega

/-- C6 (as amended): with `switch_lock` clear, no button held and the active output on
desktop `screen_index = 1`, a crossing away from the side named by the active
output's `pos` (`pos ≠ LEFT` when `mouse_x + move_x < 0 - jump_threshold`, `pos ≠ RIGHT`
when `mouse_x + move_x > 32767 + jump_threshold`, the sum fitting an `int`) makes
`check_screen_switch` change `active_output` to the other output and set `mouse_x` to
the far edge: `32767` after a crossing to the left, `0` after a crossing to the right. -/
theorem check_screen_switch_output_switch (hw : board_t) (values : mouse_values_t)
    (state : device_t) (hlock : state.switch_lock = false) (hbtn : state.mouse_buttons = 0)
    (hidx : (state.config.output.get state.active_output).screen_index = 1)
    (hfit1 : -2147483648 ≤ state.mouse_x + values.move_x)
    (hfit2 : state.mouse_x + values.move_x ≤ 2147483647)
    (hcross :
      (state.mouse_x + values.move_x < 0 - (state.config.jump_threshold : Int) ∧
          (state.config.output.get state.active_output).pos ≠ LEFT) ∨
        (state.mouse_x + values.move_x > 32767 + (state.config.jump_threshold : Int) ∧
          (state.config.output.get state.active_output).pos ≠ RIGHT)) :
    (check_screen_switch hw values state).active_output = 1 - state.active_output ∧
      (check_screen_switch hw values state).mouse_x =
        (if state.mouse_x + values.move_x < 0 - (state.config.jump_threshold : Int)
          then 32767 else 0) := by
  have key : ∀ direction : Int,
      direction = (if state.mouse_x + values.move_x < 0 - (state.config.jump_threshold : Int)
        then LEFT else RIGHT) →
      check_screen_switch hw values state =
        switch_screen hw state state.active_output (state.mouse_x + values.move_x)
          state.active_output (1 - state.active_output) direction := by
    intro direction hd
    unfold check_screen_switch
    simp only [to_int32_eq_self _ hfit1 hfit2, hlock, hbtn, MIN_SCREEN_COORD, MAX_SCREEN_COORD]
    rcases hcross with ⟨c1, c2⟩ | ⟨c1, c2⟩
    · have c3 : state.mouse_x + values.move_x < -(state.config.jump_threshold : Int) := by
        omega
      have c4 : ¬ (-(state.config.jump_threshold : Int) ≤ state.mouse_x + values.move_x ∧
          state.mouse_x + values.move_x ≤ 32767 + (state.config.jump_threshold : Int)) := by
        omega
      simp [c2, c3, c4, hidx, hd]
    · have c3 : ¬ (state.mouse_x + values.move_x < -(state.config.jump_threshold : Int)) := by
        omega
      have c4 : ¬ (-(state.config.jump_threshold : Int) ≤ state.mouse_x + values.move_x ∧
          state.mouse_x + values.move_x ≤ 32767 + (state.config.jump_threshold : Int)) := by
        omega
      have c5 : ¬ (state.mouse_x + values.move_x ≤ 32767 + (state.config.jump_threshold : Int)) := by
        omega
      simp [c2, c3, c5, hidx, hd]
  obtain ⟨_, f2, f3, _⟩ := switch_screen_fields hw state state.active_output
    (state.mouse_x + values.move_x) state.active_output (1 - state.active_output)
    (if state.mouse_x + values.move_x < 0 - (state.config.jump_threshold : Int)
      then LEFT else RIGHT)
  rw [key _ rfl]
  refine ⟨f2, ?_⟩
  rw [f3]
  split_ifs <;> first | rfl | (exfalso; revert ‹_›; decide)

/-- C8: the output switch made by `check_screen_switch`, when the `number` of the
active output is its index in `config.output`.  `switch_screen` first hands the
off-screen report `hidden_pointer` (`x = 32767`, `y = 0`) to `output_mouse_report`,
which sees the old `active_output`, and nothing else is emitted; then `active_output`
is the other output, `mouse_x` is `32767` for direction `LEFT` and `0` otherwise, and
`mouse_y` is `scale_y_coordinate` from the previously active output to its complement
at the old `mouse_y`. -/
theorem switch_screen_effects (hw : board_t) (state : device_t) (new_x direction : Int)
    (hnum : ((state.config.output.get state.active_output).number : Int) = state.active_output) :
    switch_screen hw state state.active_output new_x state.active_output
        (1 - state.active_output) direction =
      { output_mouse_report hw hidden_pointer state with
        active_output := 1 - state.active_output
        mouse_x := if direction = LEFT then 32767 else 0
        mouse_y := scale_y_coordinate state.active_output (1 - state.active_output) state } ∧
      hidden_pointer.x = 32767 ∧ hidden_pointer.y = 0 ∧
      (output_mouse_report hw hidden_pointer state).active_output = state.active_output ∧
      (switch_screen hw state state.active_output new_x state.active_output
        (1 - state.active_output) direction).reports_out =
          state.reports_out ++ [hidden_pointer] ∧
      (switch_screen hw state state.active_output new_x state.active_output
        (1 - state.active_output) direction).active_output = 1 - state.active_output ∧
      (switch_screen hw state state.active_output new_x state.active_output
        (1 - state.active_output) direction).mouse_x =
          (if direction = LEFT then 32767 else 0) ∧
      (switch_screen hw state state.active_output new_x state.active_output
        (1 - state.active_output) direction).mouse_y =
          scale_y_coordinate state.active_output (1 - state.active_output) state := by
  obtain ⟨h1, h2, _, h4, _, _, _, _⟩ := output_mouse_report_frame hw hidden_pointer state
  obtain ⟨_, f2, f3, f4, _, f6⟩ := switch_screen_fields hw state state.active_output new_x
    state.active_output (1 - state.active_output) direction
  rw [hnum] at f4
  refine ⟨?_, rfl, rfl, h2, f6, f2, f3, f4⟩
  rw [← f4]
  rfl

/-- C9: effects of `switch_desktop` for a new index that fits the `uint8_t` field.
Afterwards the `screen_index` of the output is `new_index` and `mouse_x` is `0` for
direction `RIGHT` and `32767` otherwise; `relative_mouse` is `new_index > 1` when the
`os` of the output is `WINDOWS` and is unchanged for every other `os` (`MACOS`,
`LINUX`, `OTHER`); `active_output` and `mouse_y` are unchanged. -/
theorem switch_desktop_effects (hw : board_t) (state : device_t)
    (output new_index direction : Int) (h0 : 0 ≤ new_index) (h1 : new_index ≤ 255) :
    (((switch_desktop hw state output new_index direction).config.output.get
        output).screen_index : Int) = new_index ∧
      (switch_desktop hw state output new_index direction).mouse_x =
        (if direction = RIGHT then 0 else 32767) ∧
      ((state.config.output.get output).os = WINDOWS →
        (switch_desktop hw state output new_index direction).relative_mouse =
          decide (new_index > 1)) ∧
      ((state.config.output.get output).os ≠ WINDOWS →
        (switch_desktop hw state output new_index direction).relative_mouse =
          state.relative_mouse) ∧
      MACOS ≠ WINDOWS ∧ LINUX ≠ WINDOWS ∧ OTHER ≠ WINDOWS ∧
      (switch_desktop hw state output new_index direction).active_output =
        state.active_output ∧
      (switch_desktop hw state output new_index direction).mouse_y = state.mouse_y := by
  obtain ⟨f1, f2, f3, f4, f5⟩ := switch_desktop_fields hw state output new_index direction
  refine ⟨?_, f3, ?_, ?_, by decide, by decide, by decide, f2, f4⟩
  · rw [f1]
    simp only [per_output_get_set]
    exact to_uint8_eq_self new_index h0 h1
  · intro h; rw [f5, if_pos h]
  · intro h; rw [f5, if_neg h]

/-! ## Report pipeline -/

/-- C10: `create_mouse_report` reads the state and returns a report.  With
`relative_mouse` clear the report is `ABSOLUTE` with `x = mouse_x`, `y = mouse_y`; with
`relative_mouse` set it is `RELATIVE` with `x = 16384 + move_x`, `y = 16384 + move_y`;
in both cases `wheel` and `buttons` are those of `values`. -/
theorem create_mouse_report_modes (state : device_t) (values : mouse_values_t) :
    (state.relative_mouse = false →
      create_mouse_report state values =
        { mode := ABSOLUTE, x := state.mouse_x, y := state.mouse_y,
          wheel := values.wheel, buttons := values.buttons }) ∧
      (state.relative_mouse = true →
        create_mouse_report state values =
          { mode := RELATIVE, x := 16384 + values.move_x, y := 16384 + values.move_y,
            wheel := values.wheel, buttons := values.buttons }) ∧
      ABSOLUTE ≠ RELATIVE := by
  refine ⟨?_, ?_, by decide⟩
  · intro h
    simp [create_mouse_report, h]
  · intro h
    simp [create_mouse_report, h, SCREEN_MIDPOINT]

set_option maxRecDepth 8000 in
theorem mouse_coordinates_stay_on_screen_witness :
    config_ok (sample_state 0 100).config ∧ coord_ok (sample_state 0 100) ∧
      coord_ok (check_screen_switch sample_board (sample_values (-10))
        (update_mouse_position sample_board (sample_state 0 100) (sample_values (-10)))) ∧
      (check_screen_switch sample_board (sample_values (-10))
        (update_mouse_position sample_board (sample_state 0 100)
          (sample_values (-10)))).active_output = 1 :=
  ⟨by decide, by decide,
    (mouse_coordinates_stay_on_screen sample_board (sample_state 0 100) (sample_values (-10))
      (by decide) (by decide)).1, by decide⟩

theorem scale_y_coordinate_three_cases_witness :
    border_ok ((narrow_state 0 16384).config.output.get 0) ∧
      border_ok ((narrow_state 0 16384).config.output.get 1) ∧
      scale_y_coordinate 0 1 (narrow_state 0 16384) =
        coordinate_mapper ((narrow_state 0 16384).config.output.get 0)
          ((narrow_state 0 16384).config.output.get 1) 16384 ∧
      scale_y_coordinate 0 1 (narrow_state 0 16384) = 16000 :=
  ⟨by decide, by decide,
    scale_y_coordinate_three_cases (narrow_state 0 16384) 0 1 (by decide) (by decide)
      (by decide) (by decide), by decide⟩

theorem scale_y_coordinate_shrink_range_witness :
    (4000 : Int) ≤ scale_y_coordinate 0 1 (narrow_state 0 32767) ∧
      scale_y_coordinate 0 1 (narrow_state 0 32767) ≤ 4000 + (28000 - 4000) :=
  scale_y_coordinate_shrink_range (narrow_state 0 32767) 0 1 (by decide) (by decide)
    (by decide) (by decide) (by decide)

/-- C6, counterexample: under `user_config` output A is active with `pos = RIGHT` and
`screen_index = 1`, `jump_threshold = 0`, no lock and no button; the pointer at
`mouse_x = 32767` moved by `move_x = 10` crosses the right edge, and
`check_screen_switch` returns the state unchanged: `active_output` stays `0`. -/
theorem check_screen_switch_same_side_counterexample :
    (sample_state 32767 0).switch_lock = false ∧ (sample_state 32767 0).mouse_buttons = 0 ∧
      (sample_state 32767 0).config.jump_threshold = 0 ∧
      ((sample_state 32767 0).config.output.get (sample_state 32767 0).active_output).pos = RIGHT ∧
      ((sample_state 32767 0).config.output.get
        (sample_state 32767 0).active_output).screen_index = 1 ∧
      (sample_state 32767 0).mouse_x + (sample_values 10).move_x > 32767 ∧
      check_screen_switch sample_board (sample_values 10) (sample_state 32767 0) =
        sample_state 32767 0 ∧
      (check_screen_switch sample_board (sample_values 10) (sample_state 32767 0)).active_output ≠
        1 - (sample_state 32767 0).active_output := by
  decide

theorem check_screen_switch_output_switch_witness :
    (check_screen_switch sample_board (sample_values (-10)) (sample_state 0 100)).active_output =
        1 - (sample_state 0 100).active_output ∧
      (check_screen_switch sample_board (sample_values (-10)) (sample_state 0 100)).mouse_x =
        (if (sample_state 0 100).mouse_x + (sample_values (-10)).move_x <
            0 - ((sample_state 0 100).config.jump_threshold : Int) then 32767 else 0) :=
  check_screen_switch_output_switch sample_board (sample_values (-10)) (sample_state 0 100)
    (by decide) (by decide) (by decide) (by decide) (by decide) (by decide)

theorem check_screen_switch_noop_witness :
    check_screen_switch sample_board (sample_values 5) (sample_state 100 100) =
      sample_state 100 100 :=
  check_screen_switch_noop sample_board (sample_values 5) (sample_state 100 100)
    (by decide) (by decide)

theorem switch_screen_effects_witness :
    (switch_screen sample_board (sample_state 0 100) 0 (-10) 0 1 LEFT).active_output = 1 ∧
      (switch_screen sample_board (sample_state 0 100) 0 (-10) 0 1 LEFT).mouse_x = 32767 ∧
      (switch_screen sample_board (sample_state 0 100) 0 (-10) 0 1 LEFT).reports_out =
        [hidden_pointer] :=
  ⟨(switch_screen_effects sample_board (sample_state 0 100) (-10) LEFT (by decide)).2.2.2.2.2.1,
    by decide, by decide⟩

theorem switch_desktop_effects_witness :
    (((switch_desktop sample_board (desktops_state 32767 100) 1 2 LEFT).config.output.get
        1).screen_index : Int) = 2 ∧
      (switch_desktop sample_board (desktops_state 32767 100) 1 2 LEFT).relative_mouse = true :=
  ⟨(switch_desktop_effects sample_board (desktops_state 32767 100) 1 2 LEFT (by decide)
    (by decide)).1, by decide⟩

/-! ## Report queue -/

/-- C11: `queue_mouse_report` on the bounded FIFO.  Disconnected, the state and so the
queue are unchanged; connected with a full queue, the report is dropped and the queue
is unchanged; otherwise the report is appended at the tail.  The length of the queue
never decreases by an enqueue, grows by at most one, and stays within the capacity
`MOUSE_QUEUE_LENGTH` once it is within it. -/
theorem queue_mouse_report_bounded_fifo (hw : board_t) (report : mouse_report_t)
    (state : device_t) :
    (state.tud_connected = false → queue_mouse_report hw report state = state) ∧
      (state.tud_connected = true → hw.MOUSE_QUEUE_LENGTH ≤ state.mouse_queue.length →
        queue_mouse_report hw report state = state) ∧
      (state.tud_connected = true → state.mouse_queue.length < hw.MOUSE_QUEUE_LENGTH →
        (queue_mouse_report hw report state).mouse_queue = state.mouse_queue ++ [report]) ∧
      (state.mouse_queue.length ≤ hw.MOUSE_QUEUE_LENGTH →
        (queue_mouse_report hw report state).mouse_queue.length ≤ hw.MOUSE_QUEUE_LENGTH) := by
  refine ⟨?_, ?_, ?_, ?_⟩
  · intro h
    simp [queue_mouse_report, h]
  · intro h hfull
    unfold queue_mouse_report queue_try_add
    rw [if_neg (by simp [h]), if_neg (Nat.not_lt.2 hfull)]
  · intro h hroom
    simp [queue_mouse_report, queue_try_add, h, hroom]
  · intro hcap
    unfold queue_mouse_report queue_try_add
    split_ifs <;>
      first
      | exact hcap
      | (simp only [List.length_append, List.length_singleton]; omega)

theorem queue_mouse_report_bounded_fifo_witness :
    (queue_mouse_report sample_board hidden_pointer (sample_state 0 0)).mouse_queue =
        [hidden_pointer] ∧
      (queue_mouse_report sample_board hidden_pointer (sample_state 0 0)).mouse_queue.length ≤
        sample_board.MOUSE_QUEUE_LENGTH :=
  ⟨(queue_mouse_report_bounded_fifo sample_board hidden_pointer (sample_state 0 0)).2.2.1
      (by decide) (by decide),
    (queue_mouse_report_bounded_fifo sample_board hidden_pointer (sample_state 0 0)).2.2.2
      (by decide)⟩

/-- C12: `process_mouse_queue_task` is confirm-then-dequeue.  With `tud_connected` false
or the queue empty, nothing is offered to the transport and the state is unchanged.
Otherwise exactly the head of the queue is offered; when the delivery succeeds the
queue afterwards is the old queue without its head, when it fails the state, and so
the queue with its head and order, is unchanged.  Nothing but the queue changes. -/
theorem process_mouse_queue_task_confirm_then_dequeue (usb : usb_host_t) (state : device_t) :
    ((state.tud_connected = false ∨ state.mouse_queue = []) →
        (process_mouse_queue_task usb state).state = state ∧
          (process_mouse_queue_task usb state).offered = []) ∧
      (∀ head rest, state.tud_connected = true → state.mouse_queue = head :: rest →
        (process_mouse_queue_task usb state).offered = [head] ∧
          (usb.tud_mouse_report head = true →
            (process_mouse_queue_task usb state).state = { state with mouse_queue := rest }) ∧
          (usb.tud_mouse_report head = false →
            (process_mouse_queue_task usb state).state = state)) := by
  refine ⟨?_, ?_⟩
  · rintro (h | h)
    · simp [process_mouse_queue_task, h]
    · unfold process_mouse_queue_task
      rw [h]
      split_ifs <;> exact ⟨rfl, rfl⟩
  · intro head rest hc hq
    unfold process_mouse_queue_task
    rw [hq]
    simp only [hc, Bool.not_true, Bool.false_eq_true, if_false]
    refine ⟨?_, ?_, ?_⟩
    · split_ifs <;> rfl
    · intro hs
      rw [if_pos hs]
    · intro hs
      rw [if_neg (by simp [hs])]

theorem process_mouse_queue_task_confirm_then_dequeue_witness :
    (process_mouse_queue_task sample_usb
        { sample_state 0 0 with mouse_queue := [hidden_pointer, move_relative_one LEFT] }).offered =
        [hidden_pointer] ∧
      (process_mouse_queue_task sample_usb
        { sample_state 0 0 with
          mouse_queue := [hidden_pointer, move_relative_one LEFT] }).state.mouse_queue =
        [move_relative_one LEFT] :=
  ⟨((process_mouse_queue_task_confirm_then_dequeue sample_usb
      { sample_state 0 0 with mouse_queue := [hidden_pointer, move_relative_one LEFT] }).2
      hidden_pointer [move_relative_one LEFT] (by decide) (by decide)).1, by decide⟩

/-! ## Screensaver -/

theorem screensaver_task_gated_eq (hw : board_t) (st : screensaver_static_t)
    (state : device_t) (h : screensaver_gated hw state) :
    screensaver_task hw st state = (st, state) := by
  unfold screensaver_task
  simp only
  rcases h with h | h | ⟨h1, h2⟩ | ⟨h1, h2⟩
  · rw [if_pos (by simp [h])]
  · split_ifs <;> rfl
  · by_cases hw64 : (state.config.output.get hw.BOARD_ROLE).screensaver.max_time_us +
        (state.config.output.get hw.BOARD_ROLE).screensaver.idle_time_us <
          18446744073709551616
    · have e : ((state.config.output.get hw.BOARD_ROLE).screensaver.max_time_us +
          (state.config.output.get hw.BOARD_ROLE).screensaver.idle_time_us) %
            18446744073709551616 =
          (state.config.output.get hw.BOARD_ROLE).screensaver.max_time_us +
            (state.config.output.get hw.BOARD_ROLE).screensaver.idle_time_us :=
        Nat.mod_eq_of_lt hw64
      rw [e]
      have h3 : (decide ((state.config.output.get hw.BOARD_ROLE).screensaver.max_time_us ≠ 0) &&
          decide (inactivity_period hw state >
            (state.config.output.get hw.BOARD_ROLE).screensaver.max_time_us +
              (state.config.output.get hw.BOARD_ROLE).screensaver.idle_time_us)) = true := by
        simp only [Bool.and_eq_true, decide_eq_true_eq]
        exact ⟨h1, by omega⟩
      split_ifs <;> rfl
    · exfalso
      have hlt : inactivity_period hw state < 18446744073709551616 := by
        unfold inactivity_period
        omega
      omega
  · have h3 : ((state.config.output.get hw.BOARD_ROLE).screensaver.only_if_inactive &&
        decide (state.active_output = hw.BOARD_ROLE)) = true := by
      simp [h1, h2]
    split_ifs <;> rfl

/-- C13: screensaver gating.  `screensaver_task` returns its static variables (the
synthetic position and the step direction) and the state, queue included, unchanged
whenever, for the output of this board, `screensaver.enabled` is false, or the
inactivity is below `idle_time_us`, or `max_time_us` is non-zero and the inactivity
exceeds `idle_time_us + max_time_us`, or `only_if_inactive` is set and this board is
the active output.  So a call that changes the queue or the static variables was made
with none of the four conditions holding. -/
theorem screensaver_task_gating (hw : board_t) (st : screensaver_static_t) (state : device_t) :
    (screensaver_gated hw state → screensaver_task hw st state = (st, state)) ∧
      ((screensaver_task hw st state).2.mouse_queue ≠ state.mouse_queue →
        ¬ screensaver_gated hw state) ∧
      ((screensaver_task hw st state).1 ≠ st → ¬ screensaver_gated hw state) := by
  refine ⟨screensaver_task_gated_eq hw st state, ?_, ?_⟩
  · intro hne hg
    rw [screensaver_task_gated_eq hw st state hg] at hne
    exact hne rfl
  · intro hne hg
    rw [screensaver_task_gated_eq hw st state hg] at hne
    exact hne rfl

theorem screensaver_task_gating_witness :
    screensaver_gated (board_at 100) idle_state ∧
      screensaver_task (board_at 100) screensaver_static_init idle_state =
        (screensaver_static_init, idle_state) ∧
      ¬ screensaver_gated (board_at 6000) idle_state ∧
      (screensaver_task (board_at 6000) screensaver_static_init idle_state).2.mouse_queue =
        [{ x := 20, y := 25, buttons := 0, wheel := 0, mode := 0 }] :=
  ⟨by decide,
    (screensaver_task_gating (board_at 100) screensaver_static_init idle_state).1 (by decide),
    by decide, by decide⟩

/-! ## Persisted configuration -/

/-- The configuration that `load_config` leaves in the state. -/
theorem load_config_config (m : user_config_h) (calc_checksum : config_t → Nat)
    (storage : config_storage_t) (state : device_t) :
    (load_config m calc_checksum storage state).1.config =
      (if loader_valid calc_checksum storage then storage.config else user_config m) := by
  unfold load_config loader_valid
  simp only
  by_cases h1 : storage.magic_header = CONFIG_MAGIC <;>
    by_cases h2 : storage.checksum = to_uint8 (calc_checksum storage.config : Int) <;>
    by_cases h3 : storage.config.version = CURRENT_CONFIG_VERSION <;>
    simp [h1, h2, h3]

theorem to_uint8_small (n : Nat) (h : n < 256) : to_uint8 (n : Int) = n := by
  unfold to_uint8
  omega

/-- For a record whose configuration has a checksum below `256` the `uint8_t` of
`load_config` holds the whole checksum, and the loader makes the test of §6. -/
theorem loader_valid_iff_of_small (calc_checksum : config_t → Nat) (storage : config_storage_t)
    (hsmall : calc_checksum storage.config < 256) :
    loader_valid calc_checksum storage ↔ record_valid calc_checksum storage := by
  unfold loader_valid record_valid
  rw [to_uint8_small _ hsmall, Nat.mod_eq_of_lt (lt_trans hsmall (by norm_num))]
  tauto

/-- When `export` succeeds. -/
theorem tool_export_status (calc_checksum : config_t → Nat) (ini_file : ini_file_t)
    (storage : config_storage_t) :
    ((tool_export calc_checksum ini_file (some storage)).1 = EXIT_SUCCESS ↔
        record_valid calc_checksum storage) ∧
      (¬ record_valid calc_checksum storage →
        tool_export calc_checksum ini_file (some storage) = (EXIT_FAILURE, ini_file)) := by
  unfold tool_export record_valid
  simp only
  by_cases h1 : storage.magic_header = CONFIG_MAGIC <;>
    by_cases h2 : storage.config.version = CURRENT_CONFIG_VERSION <;>
    by_cases h3 : storage.checksum = calc_checksum storage.config % 4294967296 <;>
    simp [h1, h2, h3, EXIT_SUCCESS, EXIT_FAILURE]

/-- The function `config_ini_import` never writes `version` or `jump_threshold`. -/
theorem config_ini_import_kept (ini_file : ini_file_t) (cfg result : config_t)
    (h : config_ini_import ini_file cfg = some result) :
    result.version = cfg.version ∧ result.jump_threshold = cfg.jump_threshold := by
  unfold config_ini_import at h
  simp only at h
  split at h
  · exact absurd h (by simp)
  · split at h
    · exact absurd h (by simp)
    · split at h
      · exact absurd h (by simp)
      · simp only [Option.some.injEq] at h
        rw [← h]
        exact ⟨rfl, rfl⟩

/-- For a record whose configuration has a checksum below `256`, `load_config`
accepts the record exactly when `export` does. -/
theorem load_config_agrees_of_small (m : user_config_h) (calc_checksum : config_t → Nat)
    (storage : config_storage_t) (state : device_t) (ini_file : ini_file_t)
    (hsmall : calc_checksum storage.config < 256) :
    (load_config m calc_checksum storage state).1.config =
      (if (tool_export calc_checksum ini_file (some storage)).1 = EXIT_SUCCESS
        then storage.config else user_config m) := by
  have hiff := loader_valid_iff_of_small calc_checksum storage hsmall
  rw [load_config_config]
  by_cases hv : record_valid calc_checksum storage
  · rw [if_pos (hiff.2 hv), if_pos ((tool_export_status _ _ _).1.2 hv)]
  · rw [if_neg (fun h => hv (hiff.1 h)),
      if_neg (fun h => hv ((tool_export_status _ _ _).1.1 h))]

/-- C17: `export` validates before it writes.  For a record whose `magic_header`
differs from `CONFIG_MAGIC`, or whose version differs from `CURRENT_CONFIG_VERSION`,
or whose checksum field differs from the checksum of its configuration, `export`
returns `EXIT_FAILURE`, which is not zero, and the text file is as it was; the same
holds when the binary file cannot be read, and for a valid record with bit `i < 32` of
its checksum field flipped. -/
theorem tool_export_validates (calc_checksum : config_t → Nat) (ini_file : ini_file_t)
    (storage : config_storage_t)
    (h : storage.magic_header ≠ CONFIG_MAGIC ∨
      storage.config.version ≠ CURRENT_CONFIG_VERSION ∨
      storage.checksum ≠ calc_checksum storage.config % 4294967296) :
    tool_export calc_checksum ini_file (some storage) = (EXIT_FAILURE, ini_file) ∧
      EXIT_FAILURE ≠ 0 ∧
      tool_export calc_checksum ini_file none = (EXIT_FAILURE, ini_file) ∧
      (∀ valid : config_storage_t, ∀ i : Nat, record_valid calc_checksum valid →
        tool_export calc_checksum ini_file
          (some { valid with checksum := valid.checksum ^^^ 2 ^ i }) =
            (EXIT_FAILURE, ini_file)) := by
  refine ⟨?_, by decide, rfl, ?_⟩
  · apply (tool_export_status calc_checksum ini_file storage).2
    rintro ⟨h1, h2, h3⟩
    rcases h with h | h | h
    · exact h h1
    · exact h h2
    · exact h h3
  · intro valid i hv
    apply (tool_export_status calc_checksum ini_file _).2
    rintro ⟨_, _, h3⟩
    have e : valid.checksum ^^^ 2 ^ i = valid.checksum ^^^ 0 := by
      rw [Nat.xor_zero]
      exact h3.trans hv.2.2.symm
    have := Nat.xor_right_injective e
    exact absurd this (Nat.pos_iff_ne_zero.1 (Nat.two_pow_pos i))

theorem tool_export_validates_witness :
    tool_export sample_checksum sample_text
        (some { save_config sample_checksum tuned_state with checksum := 590670 }) =
      (EXIT_FAILURE, sample_text) :=
  (tool_export_validates sample_checksum sample_text
    { save_config sample_checksum tuned_state with checksum := 590670 }
    (Or.inr (Or.inr (by decide)))).1

set_option maxRecDepth 100000 in
/-- C16, the round trip at `sample_text`: `import` and `export` both succeed, yet the
text that comes back has `core.jump_threshold = 0` where the input has `500`, and has
no key `position` in `output_a` and `output_b`, whose positions are under the key
`pos`; the other fields come back as they were. -/
theorem cfgtool_round_trip_at_sample_text :
    (tool_import sample_user_config_h sample_checksum sample_text).1 = EXIT_SUCCESS ∧
      sample_round_trip.1 = EXIT_SUCCESS ∧
      ini_find sample_text "core" "jump_threshold" = some (ini_value.num 500) ∧
      ini_find sample_round_trip.2 "core" "jump_threshold" = some (ini_value.num 0) ∧
      ini_find sample_text "output_a" "position" = some (ini_value.word "left") ∧
      ini_find sample_round_trip.2 "output_a" "position" = none ∧
      ini_find sample_round_trip.2 "output_a" "pos" = some (ini_value.word "left") ∧
      ini_find sample_round_trip.2 "output_b" "position" = none ∧
      (∀ e ∈ sample_text, e.1.2 ≠ "jump_threshold" → e.1.2 ≠ "position" →
        ini_find sample_round_trip.2 e.1.1 e.1.2 = some e.2) := by
  decide

/-! ## Desktop index and position update -/

/-- The outcomes of `check_screen_switch`, with the index a desktop switch moves to. -/
theorem check_screen_switch_index_cases (hw : board_t) (values : mouse_values_t)
    (state : device_t) :
    check_screen_switch hw values state = state ∨
      (∃ new_x direction, check_screen_switch hw values state =
        switch_screen hw state state.active_output new_x state.active_output
          (1 - state.active_output) direction) ∨
      (∃ direction,
        (state.config.output.get state.active_output).screen_index ≠ 1 ∧
        check_screen_switch hw values state =
          switch_desktop hw state state.active_output
            (((state.config.output.get state.active_output).screen_index : Int) - 1)
            direction) ∨
      (∃ direction,
        (state.config.output.get state.active_output).screen_index <
          (state.config.output.get state.active_output).screen_count ∧
        check_screen_switch hw values state =
          switch_desktop hw state state.active_output
            (((state.config.output.get state.active_output).screen_index : Int) + 1)
            direction) := by
  unfold check_screen_switch
  simp only
  split_ifs with h1 h2 h3 h4 h5 h6 h7 h8 h9 <;>
    first
    | exact Or.inl rfl
    | exact Or.inr (Or.inl ⟨_, _, rfl⟩)
    | exact Or.inr (Or.inr (Or.inl ⟨_, ‹_›, rfl⟩))
    | exact Or.inr (Or.inr (Or.inr ⟨_, ‹_›, rfl⟩))

/-- The desktop indices after `switch_desktop` on the active output. -/
theorem switch_desktop_indices (hw : board_t) (state : device_t) (new_index direction : Int)
    (h0 : 0 ≤ new_index) (h1 : new_index ≤ 255) :
    ((switch_desktop hw state state.active_output new_index direction).config.output.a =
          { state.config.output.a with screen_index := new_index.toNat } ∧
        (switch_desktop hw state state.active_output new_index direction).config.output.b =
          state.config.output.b ∧
        state.config.output.get state.active_output = state.config.output.a) ∨
      ((switch_desktop hw state state.active_output new_index direction).config.output.b =
          { state.config.output.b with screen_index := new_index.toNat } ∧
        (switch_desktop hw state state.active_output new_index direction).config.output.a =
          state.config.output.a ∧
        state.config.output.get state.active_output = state.config.output.b) := by
  obtain ⟨f1, _⟩ := switch_desktop_fields hw state state.active_output new_index direction
  have e : to_uint8 new_index = new_index.toNat := by
    unfold to_uint8
    omega
  rw [f1, e]
  unfold per_output.set per_output.get
  by_cases h : state.active_output = 0
  · left
    simp [h]
  · right
    simp [h]

/-- C18: `screen_index` stays within `[1, screen_count]`.  When both outputs satisfy
`1 ≤ screen_index ≤ screen_count` (with `screen_count` a `uint8_t`), after
`check_screen_switch` both outputs still do, `screen_count` is unchanged, and the
`screen_index` of each output, the active one included, has changed by at most `1`. -/
theorem screen_index_stays_in_range (hw : board_t) (values : mouse_values_t) (state : device_t)
    (ha : screen_index_ok state.config.output.a) (hb : screen_index_ok state.config.output.b)
    (hca : state.config.output.a.screen_count ≤ 255)
    (hcb : state.config.output.b.screen_count ≤ 255) :
    screen_index_ok (check_screen_switch hw values state).config.output.a ∧
      screen_index_ok (check_screen_switch hw values state).config.output.b ∧
      ((check_screen_switch hw values state).config.output.a.screen_index : Int) -
          state.config.output.a.screen_index ≤ 1 ∧
      (state.config.output.a.screen_index : Int) -
          (check_screen_switch hw values state).config.output.a.screen_index ≤ 1 ∧
      ((check_screen_switch hw values state).config.output.b.screen_index : Int) -
          state.config.output.b.screen_index ≤ 1 ∧
      (state.config.output.b.screen_index : Int) -
          (check_screen_switch hw values state).config.output.b.screen_index ≤ 1 := by
  obtain ⟨ha1, ha2⟩ := ha
  obtain ⟨hb1, hb2⟩ := hb
  have hget : (1 ≤ (state.config.output.get state.active_output).screen_index ∧
      (state.config.output.get state.active_output).screen_index ≤
        (state.config.output.get state.active_output).screen_count) ∧
      (state.config.output.get state.active_output).screen_count ≤ 255 := by
    rcases per_output_get_cases state.config.output state.active_output with e | e <;>
      rw [e]
    · exact ⟨⟨ha1, ha2⟩, hca⟩
    · exact ⟨⟨hb1, hb2⟩, hcb⟩
  obtain ⟨⟨hg1, hg2⟩, hg3⟩ := hget
  rcases check_screen_switch_index_cases hw values state with
    h | ⟨x, d, h⟩ | ⟨d, hne, h⟩ | ⟨d, hlt, h⟩
  · rw [h]
    exact ⟨⟨ha1, ha2⟩, ⟨hb1, hb2⟩, by omega, by omega, by omega, by omega⟩
  · rw [h, (switch_screen_fields hw state _ _ _ _ _).1]
    exact ⟨⟨ha1, ha2⟩, ⟨hb1, hb2⟩, by omega, by omega, by omega, by omega⟩
  · rw [h]
    rcases switch_desktop_indices hw state
      (((state.config.output.get state.active_output).screen_index : Int) - 1) d
      (by omega) (by omega) with ⟨e1, e2, e3⟩ | ⟨e1, e2, e3⟩
    · rw [e1, e2]
      rw [e3] at hne hg1 hg2 ⊢
      simp only [screen_index_ok]
      refine ⟨⟨?_, ?_⟩, ⟨hb1, hb2⟩, ?_, ?_, ?_, ?_⟩ <;> omega
    · rw [e1, e2]
      rw [e3] at hne hg1 hg2 ⊢
      simp only [screen_index_ok]
      refine ⟨⟨ha1, ha2⟩, ⟨?_, ?_⟩, ?_, ?_, ?_, ?_⟩ <;> omega
  · rw [h]
    rcases switch_desktop_indices hw state
      (((state.config.output.get state.active_output).screen_index : Int) + 1) d
      (by omega) (by omega) with ⟨e1, e2, e3⟩ | ⟨e1, e2, e3⟩
    · rw [e1, e2]
      rw [e3] at hlt hg1 hg2 hg3 ⊢
      simp only [screen_index_ok]
      refine ⟨⟨?_, ?_⟩, ⟨hb1, hb2⟩, ?_, ?_, ?_, ?_⟩ <;> omega
    · rw [e1, e2]
      rw [e3] at hlt hg1 hg2 hg3 ⊢
      simp only [screen_index_ok]
      refine ⟨⟨ha1, ha2⟩, ⟨?_, ?_⟩, ?_, ?_, ?_, ?_⟩ <;> omega

theorem screen_index_stays_in_range_witness :
    screen_index_ok
        (check_screen_switch sample_board (sample_values (-10))
          (desktops_state 0 0)).config.output.b ∧
      (check_screen_switch sample_board (sample_values (-10))
        (desktops_state 0 0)).config.output.b.screen_index = 2 :=
  ⟨(screen_index_stays_in_range sample_board (sample_values (-10)) (desktops_state 0 0)
      (by decide) (by decide) (by decide) (by decide)).2.1, by decide⟩

theorem move_and_keep_on_screen_wrapped_offset (position offset : Int) :
    move_and_keep_on_screen position (to_int32 offset) =
      move_and_keep_on_screen position offset := by
  have e : to_int32 (position + to_int32 offset) = to_int32 (position + offset) := by
    unfold to_int32 wrap_signed
    norm_num
    omega
  unfold move_and_keep_on_screen
  rw [e]

/-- C19: `update_mouse_position` applies acceleration, then the speed of the active
output, then clamping.  With `mouse_zoom` clear the new `mouse_x` is
`move_and_keep_on_screen(mouse_x, accelerate(move_x) * speed_x)` and the new `mouse_y`
is `move_and_keep_on_screen(mouse_y, accelerate(move_y) * speed_y)`; `mouse_buttons`
becomes `values.buttons` whatever it was; `active_output`, the configuration (and so
every `screen_index`) and `relative_mouse` are unchanged. -/
theorem update_mouse_position_effects (hw : board_t) (state : device_t)
    (values : mouse_values_t) (hzoom : state.mouse_zoom = false) :
    (update_mouse_position hw state values).mouse_x =
        move_and_keep_on_screen state.mouse_x
          (accelerate state values.move_x *
            ((state.config.output.get state.active_output).speed_x : Int)) ∧
      (update_mouse_position hw state values).mouse_y =
        move_and_keep_on_screen state.mouse_y
          (accelerate state values.move_y *
            ((state.config.output.get state.active_output).speed_y : Int)) ∧
      (update_mouse_position hw state values).mouse_buttons = values.buttons ∧
      (update_mouse_position hw state values).active_output = state.active_output ∧
      (update_mouse_position hw state values).config = state.config ∧
      (update_mouse_position hw state values).relative_mouse = state.relative_mouse := by
  refine ⟨?_, ?_, rfl, rfl, rfl, rfl⟩
  · show move_and_keep_on_screen _ (to_int32 _) = _
    rw [move_and_keep_on_screen_wrapped_offset, hzoom]
    rfl
  · show move_and_keep_on_screen _ (to_int32 _) = _
    rw [move_and_keep_on_screen_wrapped_offset, hzoom]
    rfl

theorem update_mouse_position_effects_witness :
    (update_mouse_position sample_board (sample_state 100 100) (sample_values 10)).mouse_x =
        move_and_keep_on_screen 100 (14 * 16) ∧
      (update_mouse_position sample_board (sample_state 100 100) (sample_values 10)).mouse_x =
        324 :=
  ⟨(update_mouse_position_effects sample_board (sample_state 100 100) (sample_values 10)
      (by decide)).1, by decide⟩

/-- C20: the reports of a desktop switch.  When the `os` of the output is `MACOS`,
`switch_desktop` hands exactly two reports to `output_mouse_report`, both equal to
`move_relative_one`: mode `RELATIVE`, `x = 16384 - 2` for direction `LEFT` and
`x = 16384 + 2` for direction `RIGHT`; the state in which they have been emitted still
has the old `mouse_x` and configuration, which `switch_desktop` then updates.  For
every other `os` (`WINDOWS`, `LINUX`, `OTHER`) no report is emitted, queued or sent. -/
theorem switch_desktop_reports (hw : board_t) (state : device_t)
    (output new_index direction : Int) :
    ((state.config.output.get output).os = MACOS →
        (switch_desktop hw state output new_index direction).reports_out =
          state.reports_out ++ [move_relative_one direction, move_relative_one direction] ∧
        switch_desktop_os hw state output new_index direction =
          output_mouse_report hw (move_relative_one direction)
            (output_mouse_report hw (move_relative_one direction) state) ∧
        (switch_desktop_os hw state output new_index direction).mouse_x = state.mouse_x ∧
        (switch_desktop_os hw state output new_index direction).config = state.config) ∧
      (move_relative_one direction).mode = RELATIVE ∧
      (direction = LEFT → (move_relative_one direction).x = 16384 - 2) ∧
      (direction = RIGHT → (move_relative_one direction).x = 16384 + 2) ∧
      ((state.config.output.get output).os ≠ MACOS →
        (switch_desktop hw state output new_index direction).reports_out =
            state.reports_out ∧
          (switch_desktop hw state output new_index direction).mouse_queue =
            state.mouse_queue ∧
          (switch_desktop hw state output new_index direction).uart_tx = state.uart_tx) ∧
      WINDOWS ≠ MACOS ∧ LINUX ≠ MACOS ∧ OTHER ≠ MACOS := by
  obtain ⟨a1, _, a3, _, _, _, _, a8⟩ :=
    output_mouse_report_frame hw (move_relative_one direction) state
  obtain ⟨b1, _, b3, _, _, _, _, b8⟩ :=
    output_mouse_report_frame hw (move_relative_one direction)
      (output_mouse_report hw (move_relative_one direction) state)
  refine ⟨?_, rfl, ?_, ?_, ?_, by decide, by decide, by decide⟩
  · intro hos
    have e : switch_desktop_os hw state output new_index direction =
        output_mouse_report hw (move_relative_one direction)
          (output_mouse_report hw (move_relative_one direction) state) := by
      unfold switch_desktop_os
      simp only
      rw [if_pos hos]
    refine ⟨?_, e, ?_, ?_⟩
    · show (switch_desktop_os hw state output new_index direction).reports_out = _
      rw [e, b8, a8, List.append_assoc]
      rfl
    · rw [e, b3, a3]
    · rw [e, b1, a1]
  · intro hd
    simp [move_relative_one, hd, SCREEN_MIDPOINT]
  · intro hd
    have hne : ¬ (RIGHT = LEFT) := by decide
    simp [move_relative_one, hd, hne, SCREEN_MIDPOINT]
  · intro hos
    have e : switch_desktop_os hw state output new_index direction =
        (if (state.config.output.get output).os = WINDOWS then
          { state with relative_mouse := decide (new_index > 1) } else state) := by
      unfold switch_desktop_os
      simp only
      rw [if_neg hos]
    refine ⟨?_, ?_, ?_⟩
    · show (switch_desktop_os hw state output new_index direction).reports_out = _
      rw [e]; split_ifs <;> rfl
    · show (switch_desktop_os hw state output new_index direction).mouse_queue = _
      rw [e]; split_ifs <;> rfl
    · show (switch_desktop_os hw state output new_index direction).uart_tx = _
      rw [e]; split_ifs <;> rfl

theorem switch_desktop_reports_witness :
    (switch_desktop sample_board macos_state 0 1 LEFT).reports_out =
        [move_relative_one LEFT, move_relative_one LEFT] ∧
      (move_relative_one LEFT).x = 16382 :=
  ⟨((switch_desktop_reports sample_board macos_state 0 1 LEFT).1 (by decide)).1, by decide⟩

/-! ## Screensaver motion -/

/-- The two outcomes of `screensaver_task`: it returns at one of its gates, or it
steps the synthetic position and passes the report to `queue_mouse_report`. -/
theorem screensaver_task_cases (hw : board_t) (st : screensaver_static_t) (state : device_t) :
    screensaver_task hw st state = (st, state) ∨
      ((screensaver_task hw st state).1.dx =
          (if st.report.x + st.dx < 0 ∨ st.report.x + st.dx > 32767 then -st.dx else st.dx) ∧
        (screensaver_task hw st state).1.dy =
          (if st.report.y + st.dy < 0 ∨ st.report.y + st.dy > 32767 then -st.dy else st.dy) ∧
        (screensaver_task hw st state).1.report.x =
          st.report.x + (screensaver_task hw st state).1.dx ∧
        (screensaver_task hw st state).1.report.y =
          st.report.y + (screensaver_task hw st state).1.dy ∧
        (screensaver_task hw st state).2 =
          queue_mouse_report hw (screensaver_task hw st state).1.report state) := by
  unfold screensaver_task
  simp only [MIN_SCREEN_COORD, MAX_SCREEN_COORD]
  split_ifs <;> first | exact Or.inl rfl | exact Or.inr ⟨rfl, rfl, rfl, rfl, rfl⟩

theorem bounce_inv_step (hw : board_t) (st : screensaver_static_t) (state : device_t)
    (h : bounce_inv st) : bounce_inv (screensaver_task hw st state).1 := by
  rcases screensaver_task_cases hw st state with e | ⟨e1, e2, e3, e4, _⟩
  · rw [e]; exact h
  · obtain ⟨⟨hx0, hx1⟩, ⟨hy0, hy1⟩, hdx, hdy⟩ := h
    unfold bounce_inv
    rw [e3, e4, e1, e2]
    refine ⟨⟨?_, ?_⟩, ⟨?_, ?_⟩, ?_, ?_⟩ <;> split_ifs <;> omega

theorem bounce_inv_reachable (st : screensaver_static_t) (h : screensaver_reachable st) :
    bounce_inv st := by
  induction h with
  | init => decide
  | step hw st state _ ih => exact bounce_inv_step hw st state ih

/-- C21: the screensaver bounce invariant.  For static variables reached from the
initial position `(0, 0)` with steps `dx = 20`, `dy = 25` by any number of
`screensaver_task` calls, `x` and `y` lie in `[0, 32767]`, `|dx| = 20` and `|dy| = 25`;
and a further call either returns at a gate, leaving them as they are, or passes the
new report to `queue_mouse_report` with `x` changed by `+20` or `-20` and `y` by `+25`
or `-25`, the sign of each step being flipped exactly when the old step would leave
`[0, 32767]` on that axis. -/
theorem screensaver_bounce_invariant (st : screensaver_static_t)
    (h : screensaver_reachable st) (hw : board_t) (state : device_t) :
    bounce_inv st ∧ bounce_inv (screensaver_task hw st state).1 ∧
      (screensaver_task hw st state = (st, state) ∨
        ((screensaver_task hw st state).2 =
            queue_mouse_report hw (screensaver_task hw st state).1.report state ∧
          ((screensaver_task hw st state).1.report.x - st.report.x = 20 ∨
            (screensaver_task hw st state).1.report.x - st.report.x = -20) ∧
          ((screensaver_task hw st state).1.report.y - st.report.y = 25 ∨
            (screensaver_task hw st state).1.report.y - st.report.y = -25) ∧
          (screensaver_task hw st state).1.report.x - st.report.x =
            (screensaver_task hw st state).1.dx ∧
          (screensaver_task hw st state).1.report.y - st.report.y =
            (screensaver_task hw st state).1.dy ∧
          ((screensaver_task hw st state).1.dx = st.dx ∨
            (screensaver_task hw st state).1.dx = -st.dx) ∧
          ((screensaver_task hw st state).1.dx = -st.dx ↔
            (st.report.x + st.dx < 0 ∨ st.report.x + st.dx > 32767)) ∧
          ((screensaver_task hw st state).1.dy = st.dy ∨
            (screensaver_task hw st state).1.dy = -st.dy) ∧
          ((screensaver_task hw st state).1.dy = -st.dy ↔
            (st.report.y + st.dy < 0 ∨ st.report.y + st.dy > 32767)))) := by
  have hinv := bounce_inv_reachable st h
  refine ⟨hinv, bounce_inv_step hw st state hinv, ?_⟩
  obtain ⟨_, _, hdx, hdy⟩ := hinv
  rcases screensaver_task_cases hw st state with e | ⟨e1, e2, e3, e4, e5⟩
  · exact Or.inl e
  · right
    refine ⟨e5, ?_, ?_, ?_, ?_, ?_, ?_, ?_, ?_⟩
    · rw [e3, e1]; split_ifs <;> omega
    · rw [e4, e2]; split_ifs <;> omega
    · rw [e3]; omega
    · rw [e4]; omega
    · rw [e1]; split_ifs <;> simp
    · rw [e1]; split_ifs with hc
      · exact ⟨fun _ => hc, fun _ => rfl⟩
      · constructor
        · intro hh; omega
        · intro hh; exact absurd hh hc
    · rw [e2]; split_ifs <;> simp
    · rw [e2]; split_ifs with hc
      · exact ⟨fun _ => hc, fun _ => rfl⟩
      · constructor
        · intro hh; omega
        · intro hh; exact absurd hh hc

theorem screensaver_bounce_invariant_witness :
    bounce_inv (screensaver_task (board_at 6000) screensaver_static_init idle_state).1 ∧
      (screensaver_task (board_at 6000) screensaver_static_init idle_state).1.report.x = 20 ∧
      (screensaver_task (board_at 6000) screensaver_static_init idle_state).1.report.y = 25 :=
  ⟨(screensaver_bounce_invariant screensaver_static_init screensaver_reachable.init
      (board_at 6000) idle_state).2.1, by decide, by decide⟩

/-- The fields of the session that `queue_mouse_report` leaves alone. -/
theorem queue_mouse_report_frame (hw : board_t) (report : mouse_report_t) (state : device_t) :
    (queue_mouse_report hw report state).last_activity = state.last_activity ∧
      (queue_mouse_report hw report state).active_output = state.active_output ∧
      (queue_mouse_report hw report state).mouse_x = state.mouse_x ∧
      (queue_mouse_report hw report state).mouse_y = state.mouse_y ∧
      (queue_mouse_report hw report state).mouse_buttons = state.mouse_buttons ∧
      (queue_mouse_report hw report state).relative_mouse = state.relative_mouse ∧
      (queue_mouse_report hw report state).config = state.config := by
  unfold queue_mouse_report
  split_ifs <;> exact ⟨rfl, rfl, rfl, rfl, rfl, rfl, rfl⟩

theorem screensaver_task_frame (hw : board_t) (st : screensaver_static_t) (state : device_t) :
    (screensaver_task hw st state).2.last_activity = state.last_activity ∧
      (screensaver_task hw st state).2.active_output = state.active_output ∧
      (screensaver_task hw st state).2.mouse_x = state.mouse_x ∧
      (screensaver_task hw st state).2.mouse_y = state.mouse_y ∧
      (screensaver_task hw st state).2.mouse_buttons = state.mouse_buttons ∧
      (screensaver_task hw st state).2.relative_mouse = state.relative_mouse ∧
      (screensaver_task hw st state).2.config = state.config := by
  rcases screensaver_task_cases hw st state with e | ⟨_, _, _, _, e⟩
  · rw [e]; exact ⟨rfl, rfl, rfl, rfl, rfl, rfl, rfl⟩
  · rw [e]; exact queue_mouse_report_frame hw _ state

/-- An expired screensaver is still expired at a later clock reading. -/
theorem screensaver_expired_later (hw later : board_t) (state : device_t)
    (hexp : screensaver_expired hw state)
    (hpast : state.last_activity.get hw.BOARD_ROLE ≤ hw.time_us_64)
    (hrole : later.BOARD_ROLE = hw.BOARD_ROLE) (htime : hw.time_us_64 ≤ later.time_us_64)
    (h64 : later.time_us_64 < 18446744073709551616) :
    screensaver_expired later state := by
  obtain ⟨h1, h2⟩ := hexp
  unfold screensaver_expired
  rw [hrole]
  refine ⟨h1, ?_⟩
  have e : inactivity_period hw state ≤ inactivity_period later state := by
    unfold inactivity_period
    rw [hrole]
    omega
  omega

/-- C22: `screensaver_task` never touches the real session state.  After every call
`last_activity` (both outputs), `active_output`, `mouse_x`, `mouse_y`, `mouse_buttons`,
`relative_mouse` and the configuration, so both `screen_index` values, are as before.
Therefore, once the screensaver has expired at a clock reading not before the last
activity, every run of later ticks of this board (the clock is a `uint64_t`) leaves
the static variables and the state unchanged: no report is produced. -/
theorem screensaver_never_touches_session (hw : board_t) (st : screensaver_static_t)
    (state : device_t) (ticks : List board_t)
    (hexp : screensaver_expired hw state)
    (hpast : state.last_activity.get hw.BOARD_ROLE ≤ hw.time_us_64)
    (hticks : ∀ later ∈ ticks, later.BOARD_ROLE = hw.BOARD_ROLE ∧
      hw.time_us_64 ≤ later.time_us_64 ∧ later.time_us_64 < 18446744073709551616) :
    (∀ (hw1 : board_t) (st1 : screensaver_static_t) (s1 : device_t),
        (screensaver_task hw1 st1 s1).2.last_activity = s1.last_activity ∧
          (screensaver_task hw1 st1 s1).2.active_output = s1.active_output ∧
          (screensaver_task hw1 st1 s1).2.mouse_x = s1.mouse_x ∧
          (screensaver_task hw1 st1 s1).2.mouse_y = s1.mouse_y ∧
          (screensaver_task hw1 st1 s1).2.mouse_buttons = s1.mouse_buttons ∧
          (screensaver_task hw1 st1 s1).2.relative_mouse = s1.relative_mouse ∧
          (screensaver_task hw1 st1 s1).2.config = s1.config) ∧
      screensaver_ticks ticks (st, state) = (st, state) ∧
      (∀ later ∈ ticks, screensaver_expired later state) := by
  refine ⟨screensaver_task_frame, ?_, ?_⟩
  · unfold screensaver_ticks
    induction ticks with
    | nil => rfl
    | cons t rest ih =>
      obtain ⟨r1, r2, r3⟩ := hticks t (List.mem_cons_self t rest)
      have hx := screensaver_expired_later hw t state hexp hpast r1 r2 r3
      have hg : screensaver_gated t state := Or.inr (Or.inr (Or.inl hx))
      rw [List.foldl_cons, screensaver_task_gated_eq t st state hg]
      exact ih (fun later hl => hticks later (List.mem_cons_of_mem t hl))
  · intro later hl
    obtain ⟨r1, r2, r3⟩ := hticks later hl
    exact screensaver_expired_later hw later state hexp hpast r1 r2 r3

theorem screensaver_never_touches_session_witness :
    screensaver_expired (board_at 2000) expiring_state ∧
      screensaver_ticks [board_at 2000, board_at 9000, board_at 50000]
        (screensaver_static_init, expiring_state) = (screensaver_static_init, expiring_state) :=
  ⟨by decide,
    (screensaver_never_touches_session (board_at 2000) screensaver_static_init expiring_state
      [board_at 2000, board_at 9000, board_at 50000] (by decide) (by decide)
      (by decide)).2.1⟩

/-! ## Switching from the main desktop -/

/-- The outcomes of `check_screen_switch`, with the index the active output is at when
the output is switched. -/
theorem check_screen_switch_main_cases (hw : board_t) (values : mouse_values_t)
    (state : device_t) :
    check_screen_switch hw values state = state ∨
      (∃ new_x direction,
        (state.config.output.get state.active_output).screen_index = 1 ∧
        check_screen_switch hw values state =
          switch_screen hw state state.active_output new_x state.active_output
            (1 - state.active_output) direction) ∨
      (∃ direction,
        (state.config.output.get state.active_output).screen_index ≠ 1 ∧
        check_screen_switch hw values state =
          switch_desktop hw state state.active_output
            (((state.config.output.get state.active_output).screen_index : Int) - 1)
            direction) ∨
      (∃ direction,
        (state.config.output.get state.active_output).screen_index <
          (state.config.output.get state.active_output).screen_count ∧
        check_screen_switch hw values state =
          switch_desktop hw state state.active_output
            (((state.config.output.get state.active_output).screen_index : Int) + 1)
            direction) := by
  unfold check_screen_switch
  simp only
  split_ifs with h1 h2 h3 h4 h5 h6 h7 h8 h9 <;>
    first
    | exact Or.inl rfl
    | exact Or.inr (Or.inl ⟨_, _, ‹_›, rfl⟩)
    | exact Or.inr (Or.inr (Or.inl ⟨_, ‹_›, rfl⟩))
    | exact Or.inr (Or.inr (Or.inr ⟨_, ‹_›, rfl⟩))

/-- C23: `check_screen_switch` changes `active_output` only from the main desktop.  If
the `screen_index` of the active output is not `1` before the call, `active_output` is
the same after the call; and whenever `active_output` is different after the call, the
configuration, so the `screen_index` and `screen_count` of both outputs, is as before. -/
theorem check_screen_switch_active_output_from_main (hw : board_t) (values : mouse_values_t)
    (state : device_t) :
    ((state.config.output.get state.active_output).screen_index ≠ 1 →
        (check_screen_switch hw values state).active_output = state.active_output) ∧
      ((check_screen_switch hw values state).active_output ≠ state.active_output →
        (check_screen_switch hw values state).config = state.config ∧
          (check_screen_switch hw values state).config.output.a.screen_index =
            state.config.output.a.screen_index ∧
          (check_screen_switch hw values state).config.output.b.screen_index =
            state.config.output.b.screen_index ∧
          (state.config.output.get state.active_output).screen_index = 1 ∧
          (check_screen_switch hw values state).active_output = 1 - state.active_output) := by
  rcases check_screen_switch_main_cases hw values state with
    e | ⟨x, d, hi, e⟩ | ⟨d, hi, e⟩ | ⟨d, hi, e⟩
  · rw [e]
    exact ⟨fun _ => rfl, fun h => absurd rfl h⟩
  · obtain ⟨f1, f2, _⟩ := switch_screen_fields hw state state.active_output x
      state.active_output (1 - state.active_output) d
    rw [e]
    refine ⟨fun h => absurd hi h, fun _ => ⟨f1, ?_, ?_, hi, f2⟩⟩
    · rw [f1]
    · rw [f1]
  · obtain ⟨_, f2, _⟩ := switch_desktop_fields hw state state.active_output
      (((state.config.output.get state.active_output).screen_index : Int) - 1) d
    rw [e]
    exact ⟨fun _ => f2, fun h => absurd f2 h⟩
  · obtain ⟨_, f2, _⟩ := switch_desktop_fields hw state state.active_output
      (((state.config.output.get state.active_output).screen_index : Int) + 1) d
    rw [e]
    exact ⟨fun _ => f2, fun h => absurd f2 h⟩

/-- C25: the jump threshold is a lower bound on the triggering movement.  For a state
with `mouse_x` in `[0, 32767]` and a report with `|move_x| ≤ jump_threshold` (a
`uint16_t`), `check_screen_switch` returns the state as it was: no output switch, no
desktop switch, no report, whatever `switch_lock`, the buttons, `pos` and
`screen_index` are. -/
theorem check_screen_switch_below_threshold (hw : board_t) (values : mouse_values_t)
    (state : device_t) (hx0 : 0 ≤ state.mouse_x) (hx1 : state.mouse_x ≤ 32767)
    (hmove : values.move_x.natAbs ≤ state.config.jump_threshold)
    (hjt : state.config.jump_threshold ≤ 65535) :
    check_screen_switch hw values state = state := by
  have e : to_int32 (state.mouse_x + values.move_x) = state.mouse_x + values.move_x :=
    to_int32_eq_self _ (by omega) (by omega)
  unfold check_screen_switch
  simp only [e, MIN_SCREEN_COORD, MAX_SCREEN_COORD]
  have hl : ¬ (state.mouse_x + values.move_x < 0 - (state.config.jump_threshold : Int)) := by
    omega
  have hr : ¬ (state.mouse_x + values.move_x > 32767 + (state.config.jump_threshold : Int)) := by
    omega
  rw [decide_eq_false hl, decide_eq_false hr]
  simp

theorem check_screen_switch_below_threshold_witness :
    check_screen_switch sample_board (sample_values 50) threshold_state = threshold_state :=
  check_screen_switch_below_threshold sample_board (sample_values 50) threshold_state
    (by decide) (by decide) (by decide) (by decide)

/-! ## Relative mode -/

theorem switch_inv_index (s : device_t) (h : switch_inv s) (i : Int) :
    1 ≤ (s.config.output.get i).screen_index ∧ (s.config.output.get i).screen_index ≤ 255 ∧
      (s.config.output.get i).screen_count ≤ 255 := by
  obtain ⟨_, ha, hb, hca, hcb, _⟩ := h
  rcases per_output_get_cases s.config.output i with e | e <;> rw [e]
  · exact ⟨ha.1, ha.2, hca⟩
  · exact ⟨hb.1, hb.2, hcb⟩

theorem switch_inv_screen (hw : board_t) (s : device_t) (new_x direction : Int)
    (h : switch_inv s) (hi : (s.config.output.get s.active_output).screen_index = 1) :
    switch_inv (switch_screen hw s s.active_output new_x s.active_output
      (1 - s.active_output) direction) := by
  obtain ⟨hact, ha, hb, hca, hcb, hr1, hr2⟩ := h
  obtain ⟨f1, f2, _, _, f5, _⟩ := switch_screen_fields hw s s.active_output new_x
    s.active_output (1 - s.active_output) direction
  have hfalse : s.relative_mouse = false := by
    cases hrm : s.relative_mouse
    · rfl
    · have := (hr2.1 hrm).2
      omega
  have hback : (1 : Int) - (1 - s.active_output) = s.active_output := by ring
  refine ⟨?_, ?_, ?_, ?_, ?_, ?_, ?_⟩
  · rw [f2]; omega
  · rw [f1]; exact ha
  · rw [f1]; exact hb
  · rw [f1]; exact hca
  · rw [f1]; exact hcb
  · rw [f1, f2, hback]; exact hi
  · rw [f1, f2, f5, hfalse]
    constructor
    · intro hh; cases hh
    · intro hh
      have := hh.2
      omega

theorem switch_inv_desktop (hw : board_t) (s : device_t) (n direction : Int)
    (h : switch_inv s) (h1 : 1 ≤ n) (h2 : n ≤ 255) :
    switch_inv (switch_desktop hw s s.active_output n direction) := by
  obtain ⟨hact, ha, hb, hca, hcb, hr1, hr2⟩ := h
  obtain ⟨f1, f2, _, _, f5⟩ := switch_desktop_fields hw s s.active_output n direction
  have eu : to_uint8 n = n.toNat := by
    unfold to_uint8
    omega
  have hrel : s.relative_mouse = true →
      (s.config.output.get s.active_output).os = WINDOWS := fun hh => (hr2.1 hh).1
  unfold switch_inv relative_mode_inv
  rw [f1, f2, f5, eu]
  rcases hact with h0 | h0
  · rw [h0] at hr1 hrel ⊢
    simp only [per_output.get, per_output.set] at hr1 hrel ⊢
    norm_num at hr1 hrel ⊢
    refine ⟨⟨by omega, by omega⟩, hb, hca, hcb, hr1, ?_⟩
    by_cases hos : s.config.output.a.os = WINDOWS
    · simp only [hos, if_true, decide_eq_true_eq, true_and]
    · simp only [hos, if_false, false_and, iff_false]
      intro hh
      exact hos (hrel hh)
  · rw [h0] at hr1 hrel ⊢
    simp only [per_output.get, per_output.set] at hr1 hrel ⊢
    norm_num at hr1 hrel ⊢
    refine ⟨ha, ⟨by omega, by omega⟩, hca, hcb, hr1, ?_⟩
    by_cases hos : s.config.output.b.os = WINDOWS
    · simp only [hos, if_true, decide_eq_true_eq, true_and]
    · simp only [hos, if_false, false_and, iff_false]
      intro hh
      exact hos (hrel hh)

theorem switch_inv_check (hw : board_t) (values : mouse_values_t) (s : device_t)
    (h : switch_inv s) : switch_inv (check_screen_switch hw values s) := by
  obtain ⟨i1, i2, i3⟩ := switch_inv_index s h s.active_output
  rcases check_screen_switch_main_cases hw values s with
    e | ⟨x, d, hi, e⟩ | ⟨d, hi, e⟩ | ⟨d, hi, e⟩ <;> rw [e]
  · exact h
  · exact switch_inv_screen hw s x d h hi
  · exact switch_inv_desktop hw s _ d h (by omega) (by omega)
  · exact switch_inv_desktop hw s _ d h (by omega) (by omega)

/-- The invariant reads only `config`, `active_output` and `relative_mouse`. -/
theorem switch_inv_congr (s t : device_t) (hc : t.config = s.config)
    (ha : t.active_output = s.active_output) (hr : t.relative_mouse = s.relative_mouse)
    (h : switch_inv s) : switch_inv t := by
  unfold switch_inv relative_mode_inv
  rw [hc, ha, hr]
  exact h

theorem switch_inv_report (hw : board_t) (values : mouse_values_t) (s : device_t)
    (h : switch_inv s) : switch_inv (process_mouse_report hw values s) := by
  unfold process_mouse_report
  apply switch_inv_check
  obtain ⟨f1, f2, _, _, _, _, f7, _⟩ := output_mouse_report_frame hw
    (create_mouse_report (update_mouse_position hw s values) values)
    (update_mouse_position hw s values)
  exact switch_inv_congr (update_mouse_position hw s values) _ f1 f2 f7
    (switch_inv_congr s _ rfl rfl rfl h)

/-- C24: the relative-mode invariant of the switch state machine.  Start from a state
whose active output is one of the two outputs, with `relative_mouse` clear and
`screen_index = 1` on both outputs (`screen_count` a `uint8_t`).  In every state reached
from it by `check_screen_switch` steps, and by whole `process_mouse_report` steps, the
output that is not active has `screen_index = 1`, and `relative_mouse` is set if and
only if the `os` of the active output is `WINDOWS` and its `screen_index` is greater
than `1`. -/
theorem relative_mode_invariant (start s : device_t)
    (hact : start.active_output = 0 ∨ start.active_output = 1)
    (hrel : start.relative_mouse = false)
    (ha : start.config.output.a.screen_index = 1)
    (hb : start.config.output.b.screen_index = 1)
    (hca : start.config.output.a.screen_count ≤ 255)
    (hcb : start.config.output.b.screen_count ≤ 255)
    (hreach : switch_reachable start s) :
    (s.config.output.get (1 - s.active_output)).screen_index = 1 ∧
      (s.relative_mouse = true ↔
        ((s.config.output.get s.active_output).os = WINDOWS ∧
          1 < (s.config.output.get s.active_output).screen_index)) := by
  have hstart : switch_inv start := by
    refine ⟨hact, ⟨by omega, by omega⟩, ⟨by omega, by omega⟩, hca, hcb, ?_, ?_⟩
    · rcases per_output_get_cases start.config.output (1 - start.active_output) with e | e <;>
        rw [e] <;> assumption
    · rw [hrel]
      constructor
      · intro hh; cases hh
      · intro hh
        have h2 := hh.2
        rcases per_output_get_cases start.config.output start.active_output with e | e <;>
          rw [e] at h2 <;> omega
  have hall : switch_inv s := by
    induction hreach with
    | start => exact hstart
    | check hw values state _ ih => exact switch_inv_check hw values state ih
    | report hw values state _ ih => exact switch_inv_report hw values state ih
  exact hall.2.2.2.2.2

set_option maxRecDepth 8000 in
theorem relative_mode_invariant_witness :
    relative_mode_inv (check_screen_switch sample_board (sample_values (-10))
        (desktops_state 0 0)) ∧
      (check_screen_switch sample_board (sample_values (-10))
        (desktops_state 0 0)).relative_mouse = true :=
  ⟨relative_mode_invariant (desktops_state 0 0) _ (by decide) (by decide) (by decide)
      (by decide) (by decide) (by decide)
      (switch_reachable.check sample_board (sample_values (-10)) (desktops_state 0 0)
        switch_reachable.start),
    by decide⟩

/-! ## Handover and back -/

/-- C26: a handover followed by the reverse handover never moves the cursor down and
loses only truncation.  For outputs A (`screen_from`) and B (`screen_to`) with borders
within `[0, 32767]`, `bottom > top` and `size_A > size_B`, and `mouse_y = y` in
`[0, 32767]`, let `y1 = scale_y_coordinate` from A to B at `mouse_y = y` and
`y2 = scale_y_coordinate` from B to A at `mouse_y = y1`.  Then `y1` lies inside the
border of B, `y2 ≤ y` and `(y - y2) * size_B < 32767 + size_B`. -/
theorem scale_y_coordinate_there_and_back (state : device_t) (screen_from screen_to : Int)
    (hfrom : border_ok (state.config.output.get screen_from))
    (hto : border_ok (state.config.output.get screen_to))
    (hy0 : 0 ≤ state.mouse_y) (hy1 : state.mouse_y ≤ 32767)
    (hsize :
      ((state.config.output.get screen_from).border.bottom : Int) -
          ((state.config.output.get screen_from).border.top : Int) >
        ((state.config.output.get screen_to).border.bottom : Int) -
          ((state.config.output.get screen_to).border.top : Int)) :
    (((state.config.output.get screen_to).border.top : Int) ≤
        scale_y_coordinate screen_from screen_to state ∧
      scale_y_coordinate screen_from screen_to state ≤
        ((state.config.output.get screen_to).border.bottom : Int)) ∧
      scale_y_coordinate screen_to screen_from
          { state with mouse_y := scale_y_coordinate screen_from screen_to state } ≤
        state.mouse_y ∧
      (state.mouse_y - scale_y_coordinate screen_to screen_from
          { state with mouse_y := scale_y_coordinate screen_from screen_to state }) *
          (((state.config.output.get screen_to).border.bottom : Int) -
            ((state.config.output.get screen_to).border.top : Int)) <
        32767 + (((state.config.output.get screen_to).border.bottom : Int) -
            ((state.config.output.get screen_to).border.top : Int)) := by
  have e1 := scale_y_coordinate_eq_mapper state screen_from screen_to hfrom hto hy0 hy1
  obtain ⟨hf1, hf2, hf3⟩ := hfrom
  obtain ⟨ht1, ht2, ht3⟩ := hto
  have hs : (0 : Int) < ((state.config.output.get screen_to).border.bottom : Int) -
      ((state.config.output.get screen_to).border.top : Int) := by omega
  have hp0 := Int.mul_nonneg (le_of_lt hs) hy0
  have hp1 := Int.mul_le_mul_of_nonneg_left hy1 (le_of_lt hs)
  obtain ⟨eq1, q0, q1⟩ := tdiv_bounds _ 32767 _ hp0 (by norm_num) hp1
  have e1b : scale_y_coordinate screen_from screen_to state =
      ((state.config.output.get screen_to).border.top : Int) +
        ((((state.config.output.get screen_to).border.bottom : Int) -
          ((state.config.output.get screen_to).border.top : Int)) * state.mouse_y) / 32767 := by
    rw [e1]
    unfold coordinate_mapper
    simp only
    rw [if_neg (by omega), if_pos hsize, eq1]
  have hin : ((state.config.output.get screen_to).border.top : Int) ≤
        scale_y_coordinate screen_from screen_to state ∧
      scale_y_coordinate screen_from screen_to state ≤
        ((state.config.output.get screen_to).border.bottom : Int) := by
    rw [e1b]; omega
  have e2 := scale_y_coordinate_eq_mapper
    { state with mouse_y := scale_y_coordinate screen_from screen_to state }
    screen_to screen_from ⟨ht1, ht2, ht3⟩ ⟨hf1, hf2, hf3⟩ (by show 0 ≤ scale_y_coordinate _ _ _; omega)
    (by show scale_y_coordinate _ _ _ ≤ 32767; omega)
  have e2b : scale_y_coordinate screen_to screen_from
      { state with mouse_y := scale_y_coordinate screen_from screen_to state } =
      (((((state.config.output.get screen_to).border.bottom : Int) -
          ((state.config.output.get screen_to).border.top : Int)) * state.mouse_y) / 32767
        * 32767) / (((state.config.output.get screen_to).border.bottom : Int) -
          ((state.config.output.get screen_to).border.top : Int)) := by
    rw [e2]
    show coordinate_mapper (state.config.output.get screen_to)
      (state.config.output.get screen_from) (scale_y_coordinate screen_from screen_to state) = _
    unfold coordinate_mapper
    simp only
    rw [if_neg (by omega), if_neg (by omega), if_neg (by omega), if_neg (by omega)]
    rw [e1b, add_sub_cancel_left]
    exact (tdiv_bounds _ _ 32767 (by omega) hs (by
      have := Int.mul_le_mul_of_nonneg_left q1 (show (0:Int) ≤ 32767 by norm_num)
      linarith)).1
  refine ⟨hin, ?_, ?_⟩
  · rw [e2b]
    generalize ((state.config.output.get screen_to).border.bottom : Int) -
      ((state.config.output.get screen_to).border.top : Int) = sB at *
    generalize state.mouse_y = y at *
    have hq : sB * y / 32767 * 32767 ≤ sB * y := Int.ediv_mul_le _ (by norm_num)
    have h3 : sB * y / 32767 * 32767 / sB ≤ sB * y / sB := Int.ediv_le_ediv hs hq
    rw [Int.mul_ediv_cancel_left _ (ne_of_gt hs)] at h3
    exact h3
  · rw [e2b]
    generalize ((state.config.output.get screen_to).border.bottom : Int) -
      ((state.config.output.get screen_to).border.top : Int) = sB at *
    generalize state.mouse_y = y at *
    have hq : sB * y < (sB * y / 32767 + 1) * 32767 :=
      Int.lt_ediv_add_one_mul_self _ (by norm_num)
    have hr : sB * y / 32767 * 32767 < (sB * y / 32767 * 32767 / sB + 1) * sB :=
      Int.lt_ediv_add_one_mul_self _ hs
    nlinarith

theorem scale_y_coordinate_there_and_back_witness :
    scale_y_coordinate 0 1 (narrow_state 0 20000) = 18648 ∧
      scale_y_coordinate 1 0
        { narrow_state 0 20000 with mouse_y := scale_y_coordinate 0 1 (narrow_state 0 20000) } ≤
        (narrow_state 0 20000).mouse_y :=
  ⟨by decide,
    (scale_y_coordinate_there_and_back (narrow_state 0 20000) 0 1 (by decide) (by decide)
      (by decide) (by decide) (by decide)).2.1⟩

/-! ## Monotonicity and symmetry of the acceleration -/

theorem bit_length_mono (a b : Nat) (ha : 0 < a) (hab : a ≤ b) : bit_length a ≤ bit_length b := by
  obtain ⟨h1, _⟩ := bit_length_bounds a ha
  obtain ⟨_, h2⟩ := bit_length_bounds b (by omega)
  have h3 : 2 ^ (bit_length a - 1) < 2 ^ bit_length b := by omega
  have h4 := (Nat.pow_lt_pow_iff_right (by norm_num : 1 < 2)).1 h3
  omega

/-- Above `2 ^ p` the rounded value stays between the powers of two around `a`. -/
theorem round_bits_bounds (p a : Nat) (hp : 0 < p) (h : 2 ^ p ≤ a) :
    p < bit_length a ∧ 2 ^ (bit_length a - 1) ≤ round_bits p a ∧
      round_bits p a ≤ 2 ^ bit_length a := by
  have ha : 0 < a := lt_of_lt_of_le (Nat.two_pow_pos p) h
  obtain ⟨h1, h2⟩ := bit_length_bounds a ha
  have hpl : p < bit_length a := by
    have h3 : 2 ^ p < 2 ^ bit_length a := by omega
    exact (Nat.pow_lt_pow_iff_right (by norm_num : 1 < 2)).1 h3
  refine ⟨hpl, ?_⟩
  obtain ⟨k, hk⟩ : ∃ k, bit_length a = p + k := ⟨bit_length a - p, by omega⟩
  obtain ⟨p1, hp1⟩ : ∃ p1, p = p1 + 1 := ⟨p - 1, by omega⟩
  have hK : 0 < 2 ^ k := Nat.two_pow_pos k
  have hq1 : 2 ^ p1 ≤ a / 2 ^ k := by
    rw [Nat.le_div_iff_mul_le hK, ← pow_add]
    have : p1 + k = bit_length a - 1 := by omega
    rw [this]; exact h1
  have hq2 : a / 2 ^ k < 2 ^ p := by
    rw [Nat.div_lt_iff_lt_mul hK, ← pow_add, ← hk]; exact h2
  have e1 : 2 ^ (bit_length a - 1) = 2 ^ p1 * 2 ^ k := by
    rw [← pow_add]; congr 1; omega
  have e2 : 2 ^ bit_length a = 2 ^ p * 2 ^ k := by
    rw [← pow_add, hk]
  have lo : 2 ^ p1 * 2 ^ k ≤ a / 2 ^ k * 2 ^ k := Nat.mul_le_mul_right _ hq1
  have hi : (a / 2 ^ k + 1) * 2 ^ k ≤ 2 ^ p * 2 ^ k := Nat.mul_le_mul_right _ hq2
  have step : a / 2 ^ k * 2 ^ k ≤ (a / 2 ^ k + 1) * 2 ^ k :=
    Nat.mul_le_mul_right _ (Nat.le_succ _)
  have hkk : bit_length a - p = k := by omega
  unfold round_bits
  rw [if_neg (by omega)]
  simp only [hkk]
  rw [e1, e2]
  split_ifs
  · exact ⟨le_trans lo step, hi⟩
  · exact ⟨lo, le_trans step hi⟩

/-- Rounding to the nearest multiple of `2 ^ k` is monotone. -/
theorem round_bits_mono_same (p a b : Nat) (ha : 2 ^ p ≤ a) (hab : a ≤ b)
    (hl : bit_length a = bit_length b) : round_bits p a ≤ round_bits p b := by
  have hb : 2 ^ p ≤ b := le_trans ha hab
  unfold round_bits
  rw [if_neg (show ¬ a < 2 ^ p by omega), if_neg (show ¬ b < 2 ^ p by omega), hl]
  simp only
  generalize bit_length b - p = k
  have hK : 0 < 2 ^ k := Nat.two_pow_pos k
  have hq : a / 2 ^ k ≤ b / 2 ^ k := Nat.div_le_div_right hab
  have da := Nat.div_add_mod a (2 ^ k)
  have db := Nat.div_add_mod b (2 ^ k)
  rcases Nat.lt_or_ge (a / 2 ^ k) (b / 2 ^ k) with hlt | hge
  · have h1 : (a / 2 ^ k + 1) * 2 ^ k ≤ b / 2 ^ k * 2 ^ k := Nat.mul_le_mul_right _ hlt
    have h2 : a / 2 ^ k * 2 ^ k ≤ (a / 2 ^ k + 1) * 2 ^ k :=
      Nat.mul_le_mul_right _ (Nat.le_succ _)
    have h3 : b / 2 ^ k * 2 ^ k ≤ (b / 2 ^ k + 1) * 2 ^ k :=
      Nat.mul_le_mul_right _ (Nat.le_succ _)
    split_ifs <;> omega
  · have hqe : a / 2 ^ k = b / 2 ^ k := le_antisymm hq hge
    rw [hqe] at da ⊢
    have hr : a % 2 ^ k ≤ b % 2 ^ k := by omega
    have h3 : b / 2 ^ k * 2 ^ k ≤ (b / 2 ^ k + 1) * 2 ^ k :=
      Nat.mul_le_mul_right _ (Nat.le_succ _)
    split_ifs with c1 c2 c2
    · exact le_refl _
    · exfalso
      apply c2
      rcases c1 with c | ⟨c, d⟩
      · exact Or.inl (by omega)
      · rcases Nat.lt_or_ge (2 ^ (k - 1)) (b % 2 ^ k) with c3 | c3
        · exact Or.inl c3
        · exact Or.inr ⟨by omega, d⟩
    · exact h3
    · exact le_refl _

theorem round_bits_mono (p a b : Nat) (hp : 0 < p) (hab : a ≤ b) :
    round_bits p a ≤ round_bits p b := by
  rcases Nat.lt_or_ge a (2 ^ p) with h1 | h1
  · rcases Nat.lt_or_ge b (2 ^ p) with h2 | h2
    · unfold round_bits
      rw [if_pos h1, if_pos h2]
      exact hab
    · obtain ⟨hb1, hb2, _⟩ := round_bits_bounds p b hp h2
      have h3 : 2 ^ p ≤ 2 ^ (bit_length b - 1) :=
        Nat.pow_le_pow_right (by norm_num) (by omega)
      have h4 : round_bits p a = a := by
        unfold round_bits
        rw [if_pos h1]
      omega
  · have h2 : 2 ^ p ≤ b := le_trans h1 hab
    have ha : 0 < a := lt_of_lt_of_le (Nat.two_pow_pos p) h1
    rcases Nat.lt_or_ge (bit_length a) (bit_length b) with hl | hl
    · obtain ⟨_, _, a2⟩ := round_bits_bounds p a hp h1
      obtain ⟨_, b1, _⟩ := round_bits_bounds p b hp h2
      have h3 : 2 ^ bit_length a ≤ 2 ^ (bit_length b - 1) :=
        Nat.pow_le_pow_right (by norm_num) (by omega)
      omega
    · exact round_bits_mono_same p a b h1 hab (le_antisymm (bit_length_mono a b ha hab) hl)

theorem round_sig_mono (p : Nat) (m n : Int) (hp : 0 < p) (h : m ≤ n) :
    round_sig p m ≤ round_sig p n := by
  unfold round_sig
  split_ifs with h1 h2 h2
  · have := round_bits_mono p n.natAbs m.natAbs hp (by omega)
    omega
  · omega
  · omega
  · have := round_bits_mono p m.natAbs n.natAbs hp (by omega)
    omega

theorem round_bits_zero (p : Nat) : round_bits p 0 = 0 := by
  unfold round_bits
  rw [if_pos (Nat.two_pow_pos p)]

theorem round_sig_neg (p : Nat) (n : Int) : round_sig p (-n) = -round_sig p n := by
  unfold round_sig
  rw [Int.natAbs_neg]
  rcases lt_trichotomy n 0 with h | h | h
  · rw [if_neg (by omega), if_pos h]; omega
  · subst h
    simp [round_bits_zero]
  · rw [if_pos (by omega), if_neg (by omega)]

theorem tdiv_mono (a b c : Int) (hc : 0 < c) (h : a ≤ b) : Int.tdiv a c ≤ Int.tdiv b c := by
  rcases lt_or_le a 0 with ha | ha
  · have ea : Int.tdiv a c = -((-a) / c) := by
      have : a = -(-a) := by ring
      conv_lhs => rw [this, Int.neg_tdiv, Int.tdiv_eq_ediv (by omega) (le_of_lt hc)]
    have qa : 0 ≤ (-a) / c := Int.ediv_nonneg (by omega) (le_of_lt hc)
    rcases lt_or_le b 0 with hb | hb
    · have eb : Int.tdiv b c = -((-b) / c) := by
        have : b = -(-b) := by ring
        conv_lhs => rw [this, Int.neg_tdiv, Int.tdiv_eq_ediv (by omega) (le_of_lt hc)]
      have := Int.ediv_le_ediv hc (show -b ≤ -a by omega)
      omega
    · have eb := Int.tdiv_eq_ediv hb (le_of_lt hc)
      have qb : 0 ≤ b / c := Int.ediv_nonneg hb (le_of_lt hc)
      omega
  · rw [Int.tdiv_eq_ediv ha (le_of_lt hc), Int.tdiv_eq_ediv (le_trans ha h) (le_of_lt hc)]
    exact Int.ediv_le_ediv hc h

theorem float_trunc_times_four_mono (a b : Int) (h : a ≤ b) :
    float_trunc (float_mul (int_to_float a) (double_to_float (double_literal 4 1))) ≤
      float_trunc (float_mul (int_to_float b) (double_to_float (double_literal 4 1))) := by
  rw [float_trunc_times_four, float_trunc_times_four]
  apply tdiv_mono _ _ _ (by norm_num)
  apply round_sig_mono _ _ _ (by norm_num)
  have := round_sig_mono 24 a b (by norm_num) h
  omega

theorem float_trunc_times_four_neg (d : Int) :
    float_trunc (float_mul (int_to_float (-d)) (double_to_float (double_literal 4 1))) =
      -float_trunc (float_mul (int_to_float d) (double_to_float (double_literal 4 1))) := by
  rw [float_trunc_times_four, float_trunc_times_four, round_sig_neg, neg_mul, round_sig_neg,
    Int.neg_tdiv]

/-- From `-(2^29 + 32)` to `2^29 - 17` the product with `4.0` stays inside the range of
`int32_t`. -/
theorem float_trunc_times_four_range (d : Int) (h1 : -536870944 ≤ d) (h2 : d ≤ 536870895) :
    -2147483648 ≤
        float_trunc (float_mul (int_to_float d) (double_to_float (double_literal 4 1))) ∧
      float_trunc (float_mul (int_to_float d) (double_to_float (double_literal 4 1))) ≤
        2147483520 := by
  have hi := float_trunc_times_four_mono d 536870895 h2
  have lo := float_trunc_times_four_mono (-536870944) d h1
  have e1 : float_trunc (float_mul (int_to_float 536870895)
      (double_to_float (double_literal 4 1))) = 2147483520 := by decide
  have e2 : float_trunc (float_mul (int_to_float (-536870944))
      (double_to_float (double_literal 4 1))) = -2147483648 := by decide
  rw [e1] at hi
  rw [e2] at lo
  exact ⟨lo, hi⟩

/-- From `2^29 - 16` on the product with `4.0` is at least `2^31`. -/
theorem float_trunc_times_four_above (d : Int) (h : 536870896 ≤ d) :
    2147483648 ≤
      float_trunc (float_mul (int_to_float d) (double_to_float (double_literal 4 1))) := by
  have lo := float_trunc_times_four_mono 536870896 d h
  have e1 : float_trunc (float_mul (int_to_float 536870896)
      (double_to_float (double_literal 4 1))) = 2147483648 := by decide
  rw [e1] at lo
  exact lo

/-- Below `-(2^29 + 32)` the product with `4.0` is less than `-2^31`. -/
theorem float_trunc_times_four_below (d : Int) (h : d ≤ -536870945) :
    float_trunc (float_mul (int_to_float d) (double_to_float (double_literal 4 1))) ≤
      -2147483904 := by
  have hi := float_trunc_times_four_mono d (-536870945) h
  have e1 : float_trunc (float_mul (int_to_float (-536870945))
      (double_to_float (double_literal 4 1))) = -2147483904 := by decide
  rw [e1] at hi
  exact hi

theorem scale_offset_four_in_range (d : Int) (h1 : -536870944 ≤ d) (h2 : d ≤ 536870895) :
    scale_offset d (double_to_float (double_literal 4 1)) =
      float_trunc (float_mul (int_to_float d) (double_to_float (double_literal 4 1))) := by
  obtain ⟨lo, hi⟩ := float_trunc_times_four_range d h1 h2
  unfold scale_offset
  exact float_to_int32_of_range _ ⟨lo, by omega⟩

theorem scale_offset_four_mono (a b : Int) (h1 : -536870944 ≤ a) (h : a ≤ b)
    (h2 : b ≤ 536870895) :
    scale_offset a (double_to_float (double_literal 4 1)) ≤
      scale_offset b (double_to_float (double_literal 4 1)) := by
  rw [scale_offset_four_in_range a h1 (by omega), scale_offset_four_in_range b (by omega) h2]
  exact float_trunc_times_four_mono a b h

theorem accelerate_large (d : Int) (h : 70 ≤ d.natAbs) :
    (accelerate_loop d acceleration).getD
        (scale_offset d (double_to_float (double_literal 4 1))) =
      scale_offset d (double_to_float (double_literal 4 1)) := by
  rw [accelerate_loop_large d h]
  rfl

/-- One step to the right inside `[-70, 70]` never lowers the result. -/
theorem accelerate_step_small (d : Int) (h1 : -70 ≤ d) (h2 : d ≤ 69) :
    (accelerate_loop d acceleration).getD
        (scale_offset d (double_to_float (double_literal 4 1))) ≤
      (accelerate_loop (d + 1) acceleration).getD
        (scale_offset (d + 1) (double_to_float (double_literal 4 1))) := by
  interval_cases d <;> decide

theorem accelerate_mono_small (n : Nat) : ∀ a : Int, -70 ≤ a → a + (n : Int) ≤ 70 →
    (accelerate_loop a acceleration).getD
        (scale_offset a (double_to_float (double_literal 4 1))) ≤
      (accelerate_loop (a + (n : Int)) acceleration).getD
        (scale_offset (a + (n : Int)) (double_to_float (double_literal 4 1))) := by
  induction n with
  | zero =>
    intro a _ _
    simp
  | succ m ih =>
    intro a h1 h2
    have e : a + ((m + 1 : Nat) : Int) = (a + (m : Int)) + 1 := by push_cast; ring
    rw [e]
    exact le_trans (ih a h1 (by push_cast at h2; omega))
      (accelerate_step_small (a + (m : Int)) (by omega) (by push_cast at h2; omega))

theorem accelerate_mono_mid (a b : Int) (h1 : -70 ≤ a) (h2 : a ≤ b) (h3 : b ≤ 70) :
    (accelerate_loop a acceleration).getD
        (scale_offset a (double_to_float (double_literal 4 1))) ≤
      (accelerate_loop b acceleration).getD
        (scale_offset b (double_to_float (double_literal 4 1))) := by
  have e : b = a + (((b - a).toNat : Nat) : Int) := by omega
  rw [e]
  exact accelerate_mono_small (b - a).toNat a h1 (by omega)

theorem accelerate_mono_range (a b : Int) (hlo : -536870944 ≤ a) (h : a ≤ b)
    (hhi : b ≤ 536870895) :
    (accelerate_loop a acceleration).getD
        (scale_offset a (double_to_float (double_literal 4 1))) ≤
      (accelerate_loop b acceleration).getD
        (scale_offset b (double_to_float (double_literal 4 1))) := by
  by_cases ha : a ≤ -70
  · by_cases hb : b ≤ -70
    · rw [accelerate_large a (by omega), accelerate_large b (by omega)]
      exact scale_offset_four_mono a b hlo h hhi
    · by_cases hb2 : 70 ≤ b
      · rw [accelerate_large a (by omega), accelerate_large b (by omega)]
        exact scale_offset_four_mono a b hlo h hhi
      · have s1 := scale_offset_four_mono a (-70) hlo ha (by norm_num)
        rw [← accelerate_large a (by omega), ← accelerate_large (-70) (by decide)] at s1
        exact le_trans s1 (accelerate_mono_mid (-70) b (by omega) (by omega) (by omega))
  · by_cases ha2 : 70 ≤ a
    · rw [accelerate_large a (by omega), accelerate_large b (by omega)]
      exact scale_offset_four_mono a b hlo h hhi
    · by_cases hb2 : 70 ≤ b
      · have s1 := scale_offset_four_mono 70 b (by norm_num) hb2 hhi
        rw [← accelerate_large 70 (by decide), ← accelerate_large b (by omega)] at s1
        exact le_trans (accelerate_mono_mid a 70 (by omega) (by omega) (by omega)) s1
      · exact accelerate_mono_mid a b (by omega) h (by omega)

theorem accelerate_odd_small (d : Int) (h1 : 0 ≤ d) (h2 : d ≤ 69) :
    (accelerate_loop (-d) acceleration).getD
        (scale_offset (-d) (double_to_float (double_literal 4 1))) =
      -(accelerate_loop d acceleration).getD
        (scale_offset d (double_to_float (double_literal 4 1))) := by
  interval_cases d <;> decide

theorem scale_offset_four_odd (d : Int) (h : d.natAbs ≤ 536870895) :
    scale_offset (-d) (double_to_float (double_literal 4 1)) =
      -scale_offset d (double_to_float (double_literal 4 1)) := by
  rw [scale_offset_four_in_range d (by omega) (by omega),
    scale_offset_four_in_range (-d) (by omega) (by omega)]
  exact float_trunc_times_four_neg d

theorem accelerate_factor_large (d : Int) (h : 70 ≤ d.natAbs) :
    accelerate_factor d = double_to_float (double_literal 4 1) := by
  unfold accelerate_factor acceleration
  simp only [accelerate_factor_loop]
  split_ifs <;> first | rfl | omega

/-- Below the last breakpoint the product is converted inside the range of `int32_t`,
and `accelerate` returns its truncation. -/
theorem accelerate_product_small (d : Int) (h1 : -69 ≤ d) (h2 : d ≤ 69) :
    float_in_int32_range (float_mul (int_to_float d) (accelerate_factor d)) ∧
      (accelerate_loop d acceleration).getD
          (scale_offset d (double_to_float (double_literal 4 1))) =
        float_trunc (float_mul (int_to_float d) (accelerate_factor d)) := by
  interval_cases d <;> decide

/-- The deltas whose product `accelerate` can convert: exactly those from
`-(2^29 + 32)` to `2^29 - 17`. -/
theorem accelerate_product_in_range_iff (d : Int) :
    float_in_int32_range (float_mul (int_to_float d) (accelerate_factor d)) ↔
      (-536870944 ≤ d ∧ d ≤ 536870895) := by
  by_cases hs : d.natAbs < 70
  · have := (accelerate_product_small d (by omega) (by omega)).1
    constructor
    · intro _; omega
    · intro _; exact this
  · rw [accelerate_factor_large d (by omega)]
    constructor
    · intro hr
      by_contra hc
      by_cases hd : d ≤ 536870895
      · have := float_trunc_times_four_below d (by omega)
        have := hr.1
        omega
      · have := float_trunc_times_four_above d (by omega)
        have := hr.2
        omega
    · intro hr
      obtain ⟨lo, hi⟩ := float_trunc_times_four_range d hr.1 hr.2
      exact ⟨lo, by omega⟩

/-- C27, as the code has it: with acceleration enabled, `accelerate` is monotone
non-decreasing, across the seven bucket boundaries too, and
`accelerate(-d) = -accelerate(d)`, on the deltas whose product the conversion to
`int32_t` is defined for.  Those are exactly the deltas from `-536870944 = -(2^29 + 32)`
to `536870895 = 2^29 - 17`, and there `accelerate` returns the truncated product.
Monotonicity holds on that whole range and the symmetry for `|d| ≤ 536870895`.  The
symmetry cannot be extended: for `536870895 < d ≤ 536870944` the value
`accelerate(-d)` is `INT32_MIN`, which is `-r` for no `int32_t` value `r`. -/
theorem accelerate_monotone_odd_in_range (state : device_t)
    (h : state.config.enable_acceleration = true) :
    (∀ a b : Int, -536870944 ≤ a → a ≤ b → b ≤ 536870895 →
        accelerate state a ≤ accelerate state b) ∧
      (∀ d : Int, d.natAbs ≤ 536870895 → accelerate state (-d) = -accelerate state d) ∧
      (∀ d : Int, float_in_int32_range (float_mul (int_to_float d) (accelerate_factor d)) ↔
        (-536870944 ≤ d ∧ d ≤ 536870895)) ∧
      (∀ d : Int, -536870944 ≤ d → d ≤ 536870895 →
        accelerate state d = float_trunc (float_mul (int_to_float d) (accelerate_factor d))) ∧
      (∀ d : Int, 536870895 < d → d ≤ 536870944 →
        accelerate state (-d) = -2147483648 ∧
          ∀ r : Int, -2147483648 ≤ r → r ≤ 2147483647 → accelerate state (-d) ≠ -r) := by
  refine ⟨?_, ?_, accelerate_product_in_range_iff, ?_, ?_⟩
  · intro a b hlo hab hhi
    rw [accelerate_enabled state a h, accelerate_enabled state b h]
    exact accelerate_mono_range a b hlo hab hhi
  · intro d hd
    rw [accelerate_enabled state (-d) h, accelerate_enabled state d h]
    by_cases hs : d.natAbs < 70
    · rcases le_total 0 d with h0 | h0
      · exact accelerate_odd_small d h0 (by omega)
      · have := accelerate_odd_small (-d) (by omega) (by omega)
        rw [neg_neg] at this
        rw [this, neg_neg]
    · rw [accelerate_large d (by omega), accelerate_large (-d) (by omega)]
      exact scale_offset_four_odd d hd
  · intro d hlo hhi
    rw [accelerate_enabled state d h]
    by_cases hs : d.natAbs < 70
    · exact (accelerate_product_small d (by omega) (by omega)).2
    · rw [accelerate_large d (by omega), accelerate_factor_large d (by omega)]
      exact scale_offset_four_in_range d hlo hhi
  · intro d hlo hhi
    have e : accelerate state (-d) = -2147483648 := by
      rw [accelerate_enabled state (-d) h, accelerate_large (-d) (by omega),
        scale_offset_four_in_range (-d) (by omega) (by omega)]
      have lo := (float_trunc_times_four_range (-d) (by omega) (by omega)).1
      have up := float_trunc_times_four_above d (by omega)
      rw [float_trunc_times_four_neg d] at lo ⊢
      omega
    refine ⟨e, ?_⟩
    intro r r1 r2
    rw [e]
    omega

theorem accelerate_monotone_odd_in_range_witness :
    accelerate (sample_state 0 0) 69 ≤ accelerate (sample_state 0 0) 70 ∧
      accelerate (sample_state 0 0) (-10) = -accelerate (sample_state 0 0) 10 ∧
      accelerate (sample_state 0 0) 70 = 280 ∧ accelerate (sample_state 0 0) 69 = 276 :=
  ⟨(accelerate_monotone_odd_in_range (sample_state 0 0) (by decide)).1 69 70
      (by decide) (by decide) (by decide),
    (accelerate_monotone_odd_in_range (sample_state 0 0) (by decide)).2.1 10 (by decide),
    by decide, by decide⟩

/-- C27, the sentence as written: `accelerate(-d) = -accelerate(d)` fails at
`d = 536870911 = 2^29 - 1`, inside the range of `int32_t`.  The delta becomes the
`float` `2^29`.  For `-d` the product is `-2^31`, so `accelerate(-d)` is exactly
`INT32_MIN`, and no `int32_t` value `r` has `-r = INT32_MIN`.  For `d` the product is
`2^31`, outside the range of `int32_t`; with the conversion yielding `INT32_MIN` there,
`accelerate(536870895) = 2147483520` is followed by the smaller
`accelerate(536870911)`, so the function is not monotone over all deltas either. -/
theorem accelerate_odd_counterexample :
    (sample_state 0 0).config.enable_acceleration = true ∧
      accelerate (sample_state 0 0) (-536870911) = -2147483648 ∧
      float_trunc (float_mul (int_to_float (-536870911))
        (accelerate_factor (-536870911))) = -2147483648 ∧
      float_trunc (float_mul (int_to_float 536870911)
        (accelerate_factor 536870911)) = 2147483648 ∧
      (∀ r : Int, -2147483648 ≤ r → r ≤ 2147483647 →
        accelerate (sample_state 0 0) (-536870911) ≠ -r) ∧
      accelerate (sample_state 0 0) (-536870911) ≠
        -accelerate (sample_state 0 0) 536870911 ∧
      accelerate (sample_state 0 0) 536870895 = 2147483520 ∧
      accelerate (sample_state 0 0) 536870911 = -2147483648 ∧
      ¬ (accelerate (sample_state 0 0) 536870895 ≤
        accelerate (sample_state 0 0) 536870911) := by
  have e : accelerate (sample_state 0 0) (-536870911) = -2147483648 := by decide
  refine ⟨by decide, e, by decide, by decide, ?_, by decide, by decide, by decide, by decide⟩
  intro r r1 r2
  rw [e]
  omega

end DeskHop
